import Mathlib

/-!
Verification of the batch-ingestion core of the `azure-bank-project-CP-`
repository: the sanitizer (`utils/sanitizer.py`), the timestamp utilities
(`utils/date_utils.py`), the transaction row validator
(`validator/transaction_validator.py`), the fraud rule engine
(`alerts/transaction_alerts.py`) and the profile alert engine
(`alerts/profile_alerts.py`) are embedded shallowly:

* Python floats are modelled as exact decimal numbers (`Dec`: an integer
  mantissa with a power-of-ten scale).  Every amount appearing in the
  pipeline is a short decimal literal, for which binary floats and exact
  decimals order and add identically.
* Python `datetime` values are modelled as microseconds since the Unix epoch
  (`Int`); all datetimes the engine compares carry an explicit UTC offset
  (the validator emits only UTC-normalised ISO strings), so an instant
  captures them faithfully.
* Python dicts that act as CSV rows are modelled as association lists or as
  structures holding exactly the fields the embedded code reads.
* Code that swallows exceptions and continues (`try/except` around `float`
  and timestamp parsing) is modelled with `Option`.
-/

/-! ## Exact decimals standing in for Python floats -/

/-- An exact decimal: the value `m / 10 ^ e`.  This represents the Python
floats flowing through the pipeline (amounts, balances, incomes), which are
all parsed from decimal text. -/
structure Dec where
  m : Int
  e : Nat
deriving DecidableEq

/-- Value order on decimals (compare after clearing denominators). -/
def Dec.le (a b : Dec) : Prop := a.m * (10 : Int) ^ b.e ≤ b.m * (10 : Int) ^ a.e

/-- Strict value order on decimals. -/
def Dec.lt (a b : Dec) : Prop := a.m * (10 : Int) ^ b.e < b.m * (10 : Int) ^ a.e

instance : DecidableRel Dec.le := fun a b =>
  inferInstanceAs (Decidable (a.m * (10 : Int) ^ b.e ≤ b.m * (10 : Int) ^ a.e))

instance : DecidableRel Dec.lt := fun a b =>
  inferInstanceAs (Decidable (a.m * (10 : Int) ^ b.e < b.m * (10 : Int) ^ a.e))

/-- Exact addition of decimals (common scale). -/
def Dec.add (a b : Dec) : Dec :=
  ⟨a.m * (10 : Int) ^ (max a.e b.e - a.e) + b.m * (10 : Int) ^ (max a.e b.e - b.e),
   max a.e b.e⟩

/-- Exact multiplication of decimals. -/
def Dec.mul (a b : Dec) : Dec := ⟨a.m * b.m, a.e + b.e⟩

/-- Negation. -/
def Dec.neg (a : Dec) : Dec := ⟨-a.m, a.e⟩

/-- A decimal from a natural number. -/
def Dec.ofNat (n : Nat) : Dec := ⟨(n : Int), 0⟩

/-- Multiply by `10 ^ z` for an integer `z` (used for float exponents). -/
def Dec.scale10 (a : Dec) (z : Int) : Dec :=
  if 0 ≤ z then ⟨a.m * (10 : Int) ^ z.toNat, a.e⟩ else ⟨a.m, a.e + (-z).toNat⟩

/-- The rational value of a decimal; used only to state value-level facts,
never inside the embedded code. -/
def Dec.toRat (a : Dec) : ℚ := (a.m : ℚ) / (10 : ℚ) ^ a.e

/-! ## Python scalar helpers -/

/-- The whitespace characters stripped by Python's `str.strip()` (ASCII part;
unicode spaces never occur in this pipeline's data). -/
def isPySpace (c : Char) : Bool :=
  c = ' ' || c = '\t' || c = '\n' || c = '\r' || c = '\x0b' || c = '\x0c'

/-- `str.strip()` on a character list. -/
def pyStripChars (l : List Char) : List Char :=
  ((l.dropWhile isPySpace).reverse.dropWhile isPySpace).reverse

/-- `str.strip()`. -/
def pyStrip (s : String) : String := ⟨pyStripChars s.data⟩

/-- `f"{x}"` on an optional string: Python renders `None` as the text `None`. -/
def pyOptStr : Option String → String
  | none => "None"
  | some s => s

/-- Truthiness of an optional string: Python treats `None` and `""` as falsy. -/
def truthyStr : Option String → Bool
  | none => false
  | some s => s ≠ ""

/-- `a or b` on optional strings, with Python truthiness. -/
def pyOrStr (a b : Option String) : Option String :=
  if truthyStr a then a else b

/-! ## `float(...)` on strings, exactly

CPython's `float(str)` strips whitespace, allows a sign, underscores strictly
between digits, an integer and/or fractional digit run around an optional dot,
and an optional exponent.  The special values `inf`/`infinity`/`nan` have no
finite value and never occur as banking CSV amounts; the model treats them as
unparseable. -/

/-- Digit run reader: consumes leading digits (and underscores that sit
strictly between two digits, as CPython permits), returning the accumulated
value, the number of digits consumed, and the rest.  An underscore that is not
followed by a digit is left unconsumed, which makes the overall parse fail via
the leftover-input check. -/
def readDigits : List Char → Nat → Nat → Nat × Nat × List Char
  | [], acc, cnt => (acc, cnt, [])
  | c :: rest, acc, cnt =>
    if c.isDigit then readDigits rest (10 * acc + (c.toNat - 48)) (cnt + 1)
    else if c = '_' && cnt ≠ 0 then
      match rest with
      | d :: rest2 =>
        if d.isDigit then readDigits rest2 (10 * acc + (d.toNat - 48)) (cnt + 1)
        else (acc, cnt, c :: d :: rest2)
      | [] => (acc, cnt, [c])
    else (acc, cnt, c :: rest)

/-- The unsigned part of CPython's float grammar:
`digits [. digits] [(e|E) [sign] digits]`, at least one mantissa digit. -/
def parseUnsignedFloat (l : List Char) : Option Dec :=
  let (ip, ipn, r1) := readDigits l 0 0
  let (fp, fpn, r2) :=
    match r1 with
    | '.' :: t => readDigits t 0 0
    | _ => (0, 0, r1)
  let r2 := if ipn + fpn = 0 then r1 else r2
  if ipn + fpn = 0 then none else
  let base : Dec := ⟨(ip * 10 ^ fpn + fp : Nat), fpn⟩
  match r2 with
  | [] => some base
  | e :: t =>
    if e = 'e' || e = 'E' then
      let (sgn, t2) :=
        match t with
        | '+' :: t3 => ((1 : Int), t3)
        | '-' :: t3 => ((-1 : Int), t3)
        | _ => ((1 : Int), t)
      let (ev, evn, r3) := readDigits t2 0 0
      if evn = 0 then none
      else if r3 = [] then some (base.scale10 (sgn * (ev : Int))) else none
    else none

/-- CPython `float(s)` for a string (see above for the `inf`/`nan` caveat). -/
def pyFloatOfString (s : String) : Option Dec :=
  match pyStripChars s.data with
  | [] => none
  | '+' :: t => parseUnsignedFloat t
  | '-' :: t => (parseUnsignedFloat t).map Dec.neg
  | l => parseUnsignedFloat l

/-! ## `utils/sanitizer.py` -/

/-- A Python value as it appears in the pipeline's dicts: absent/`None`,
a string, or a number (Python `int`/`float`, modelled as `Dec`). -/
inductive PyVal where
  | vNone
  | vStr (s : String)
  | vNum (q : Dec)
deriving DecidableEq

/-- Python truthiness of a `PyVal` (a number is falsy exactly when its value
is zero, i.e. when its mantissa is zero). -/
def PyVal.truthy : PyVal → Bool
  | .vNone => false
  | .vStr s => s ≠ ""
  | .vNum q => q.m ≠ 0

/-- `f"{v}"`: Python string rendering, abstracted.  `None` renders as `None`;
strings render as themselves; the numeric case abbreviates `repr(float)`
(exact for scale-zero values, which is all the pipeline ever renders into
alert reasons; no claim inspects a reason string). -/
def PyVal.render : PyVal → String
  | .vNone => "None"
  | .vStr s => s
  | .vNum q => if q.e = 0 then toString q.m ++ ".0"
               else toString q.m ++ "e-" ++ toString q.e

/-- Remove every comma, as `value.replace(",", "")` does. -/
def removeCommas (s : String) : String := ⟨s.data.filter (fun c => c ≠ ',')⟩

/-- `sanitizer.to_float`: `None` stays `None`; strings lose their commas and
surrounding whitespace and must then be non-empty and numeric; numbers pass
through (`float(int)` / `float(float)`). -/
def to_float : PyVal → Option Dec
  | .vNone => none
  | .vStr s =>
    let cleanedStr := pyStrip (removeCommas s)
    if cleanedStr = "" then none else pyFloatOfString cleanedStr
  | .vNum q => some q

/-- `to_float` restricted to the CSV domain (string-or-missing values). -/
def to_floatOS (v : Option String) : Option Dec :=
  match v with
  | none => none
  | some s => to_float (.vStr s)

/-! ## `utils/date_utils.py` and `dateutil.parser.parse`

Timestamps are instants: microseconds since the Unix epoch (`Int`).
`dateutil.parser.parse` accepts dozens of layouts; the embedding covers the
layouts this pipeline produces and the layouts the claims mention, with
dateutil's documented resolution rules (checked against dateutil 2.9):

* `YYYY-MM-DD` (also with `/`), optionally followed by `T`/`t`/space and a
  clock `HH:MM[:SS[.ffffff]]`, optionally followed by `Z`/`z` or a
  `±HH:MM` offset — the shape of every string `parse_ts(...).isoformat()`
  emits;
* `A-B-YYYY` (also with `/`): dateutil resolves the ambiguous pair
  month-first — `month := A` when `A ≤ 12`, otherwise `day := A` and
  `month := B` — it does *not* prefer day-first;
* a clock written with a dot (`14.16`) is *not* a valid time token next to a
  full date: dateutil raises `ParserError` on `"01-02-2024 14.16"`.

Not modelled (never produced by the pipeline, never mentioned by a claim):
compact digit layouts (`YYYYMMDD`), natural-language month names, bare
numbers that dateutil completes from the current date, mixed separators,
and colon-free offsets.  Offsets are folded into the instant, matching
`parse_ts`'s normalisation to UTC; naive datetimes are taken as UTC, which is
how `parse_ts` treats them. -/

/-- Leap year (proleptic Gregorian, as Python's `datetime`). -/
def isLeap (y : Int) : Bool := (y % 4 = 0 && y % 100 ≠ 0) || y % 400 = 0

/-- Days in a month. -/
def daysInMonth (y : Int) (m : Nat) : Nat :=
  if m = 2 then (if isLeap y then 29 else 28)
  else if m = 4 || m = 6 || m = 9 || m = 11 then 30
  else 31

/-- Days from 1970-01-01 to `y-m-d` (Howard Hinnant's civil algorithm,
Euclidean division throughout). -/
def daysFromCivil (y : Int) (m d : Nat) : Int :=
  let y2 : Int := if m ≤ 2 then y - 1 else y
  let era : Int := Int.ediv y2 400
  let yoe : Int := y2 - era * 400
  let mp : Int := if m ≤ 2 then (m : Int) + 9 else (m : Int) - 3
  let doy : Int := Int.ediv (153 * mp + 2) 5 + (d : Int) - 1
  let doe : Int := yoe * 365 + Int.ediv yoe 4 - Int.ediv yoe 100 + doy
  era * 146097 + doe - 719468

/-- Microseconds since the epoch of a UTC civil datetime. -/
def civilMicros (y : Int) (mo d h mi s : Nat) : Int :=
  daysFromCivil y mo d * 86400000000
    + (h : Int) * 3600000000 + (mi : Int) * 60000000 + (s : Int) * 1000000

/-- Read exactly a run of digits (no underscores), returning value, digit
count and rest. -/
def readPlainDigits : List Char → Nat → Nat → Nat × Nat × List Char
  | [], acc, cnt => (acc, cnt, [])
  | c :: rest, acc, cnt =>
    if c.isDigit then readPlainDigits rest (10 * acc + (c.toNat - 48)) (cnt + 1)
    else (acc, cnt, c :: rest)

/-- Parse the date part: returns `(year, month, day, rest)`.  Covers the
`YYYY-MM-DD` and `A-B-YYYY` layouts with a single separator `-` or `/`,
applying dateutil's month-first resolution for the ambiguous pair. -/
def parseDatePart (l : List Char) : Option (Int × Nat × Nat × List Char) :=
  let (n1, c1, r1) := readPlainDigits l 0 0
  match r1 with
  | sep :: r2 =>
    if sep = '-' || sep = '/' then
      let (n2, c2, r3) := readPlainDigits r2 0 0
      match r3 with
      | sep2 :: r4 =>
        if sep2 = sep then
          let (n3, c3, r5) := readPlainDigits r4 0 0
          if c1 = 4 && 1 ≤ c2 && c2 ≤ 2 && 1 ≤ c3 && c3 ≤ 2 then
            some ((n1 : Int), n2, n3, r5)
          else if 1 ≤ c1 && c1 ≤ 2 && 1 ≤ c2 && c2 ≤ 2 && c3 = 4 then
            -- dateutil's `_resolve_ymd`: month-first unless the first
            -- number cannot be a month
            if n1 ≤ 12 then some ((n3 : Int), n1, n2, r5)
            else some ((n3 : Int), n2, n1, r5)
          else none
        else none
      | [] => none
    else none
  | [] => none

/-- Parse an optional clock-and-offset suffix after a date: empty input means
midnight; otherwise a `T`/`t`/space separator, `HH:MM[:SS[.ffffff]]`, and an
optional `Z`/`z` or `±HH:MM` offset.  Returns microseconds into the day minus
the offset (i.e. the UTC adjustment), or `none` on malformed input. -/
def parseClockPart (l : List Char) : Option Int :=
  match l with
  | [] => some 0
  | sep :: r0 =>
    if sep = 'T' || sep = 't' || sep = ' ' then
      let (h, ch, r1) := readPlainDigits r0 0 0
      if ch < 1 || 2 < ch || 24 ≤ h then none else
      match r1 with
      | ':' :: r2 =>
        let (mi, cmi, r3) := readPlainDigits r2 0 0
        if cmi < 1 || 2 < cmi || 60 ≤ mi then none else
        let secPart : Option (Nat × Nat × List Char) :=
          match r3 with
          | ':' :: r4 =>
            let (s, cs, r5) := readPlainDigits r4 0 0
            if cs < 1 || 2 < cs || 60 ≤ s then none else
            match r5 with
            | '.' :: r6 =>
              let (f, cf, r7) := readPlainDigits r6 0 0
              if cf < 1 || 6 < cf then none
              else some (s, f * 10 ^ (6 - cf), r7)
            | _ => some (s, 0, r5)
          | _ => some (0, 0, r3)
        match secPart with
        | none => none
        | some (s, frac, r5) =>
          let dayMicros : Int :=
            (h : Int) * 3600000000 + (mi : Int) * 60000000
              + (s : Int) * 1000000 + (frac : Int)
          match r5 with
          | [] => some dayMicros
          | ['Z'] => some dayMicros
          | ['z'] => some dayMicros
          | os :: r6 =>
            if os = '+' || os = '-' then
              let (oh, coh, r7) := readPlainDigits r6 0 0
              if coh ≠ 2 || 24 ≤ oh then none else
              match r7 with
              | ':' :: r8 =>
                let (om, com, r9) := readPlainDigits r8 0 0
                if com ≠ 2 || 60 ≤ om || r9 ≠ [] then none else
                let off : Int := (oh : Int) * 3600000000 + (om : Int) * 60000000
                some (dayMicros - (if os = '+' then off else -off))
              | _ => none
            else none
      | _ => none
    else none

/-- `dateutil.parser.parse` on the modelled layouts, as a UTC instant in
microseconds.  Surrounding whitespace is tolerated; the date must be valid in
the proleptic Gregorian calendar and the year must fit Python's `datetime`
(1–9999). -/
def dateutilParse (s : String) : Option Int :=
  match parseDatePart (pyStripChars s.data) with
  | none => none
  | some (y, mo, d, rest) =>
    if 1 ≤ y && y ≤ 9999 && 1 ≤ mo && mo ≤ 12 && 1 ≤ d && d ≤ daysInMonth y mo then
      match parseClockPart rest with
      | none => none
      | some clock => some (daysFromCivil y mo d * 86400000000 + clock)
    else none

/-- `date_utils.parse_ts`: falsy input (missing value or empty string) is
`None`; otherwise parse with dateutil, assume UTC when naive, convert to UTC
when offset-aware (the instant model performs both normalisations). -/
def parse_ts (value : Option String) : Option Int :=
  match value with
  | none => none
  | some s => if s = "" then none else dateutilParse s

/-! ### Rendering `datetime.isoformat()` for UTC instants -/

/-- Civil date from days since the epoch (inverse of `daysFromCivil`). -/
def civilFromDays (z0 : Int) : Int × Nat × Nat :=
  let z := z0 + 719468
  let era : Int := Int.ediv z 146097
  let doe : Int := z - era * 146097
  let yoe : Int := Int.ediv (doe - Int.ediv doe 1460 + Int.ediv doe 36524 - Int.ediv doe 146096) 365
  let y : Int := yoe + era * 400
  let doy : Int := doe - (365 * yoe + Int.ediv yoe 4 - Int.ediv yoe 100)
  let mp : Int := Int.ediv (5 * doy + 2) 153
  let d : Int := doy - Int.ediv (153 * mp + 2) 5 + 1
  let mo : Int := if mp < 10 then mp + 3 else mp - 9
  (if mo ≤ 2 then y + 1 else y, mo.toNat, d.toNat)

/-- Zero-padded decimal rendering of width 2. -/
def pad2 (n : Nat) : String := (if n < 10 then "0" else "") ++ toString n

/-- Zero-padded decimal rendering of width 4. -/
def pad4 (n : Nat) : String :=
  (if n < 10 then "000" else if n < 100 then "00" else if n < 1000 then "0" else "")
    ++ toString n

/-- Zero-padded decimal rendering of width 6. -/
def pad6 (n : Nat) : String :=
  (if n < 10 then "00000" else if n < 100 then "0000" else if n < 1000 then "000"
   else if n < 10000 then "00" else if n < 100000 then "0" else "")
    ++ toString n

/-- `datetime.isoformat()` for a UTC-aware datetime (the only kind the
pipeline renders: `parse_ts` output, and the engine's re-parse of the
validator's own UTC ISO strings): `YYYY-MM-DDTHH:MM:SS[.ffffff]+00:00`,
microseconds printed only when non-zero. -/
def isoOfMicros (t : Int) : String :=
  let days := Int.ediv t 86400000000
  let rem := (Int.emod t 86400000000).toNat
  let (y, mo, d) := civilFromDays days
  let micro := rem % 1000000
  let secs := rem / 1000000
  pad4 y.toNat ++ "-" ++ pad2 mo ++ "-" ++ pad2 d ++ "T"
    ++ pad2 (secs / 3600) ++ ":" ++ pad2 (secs / 60 % 60) ++ ":" ++ pad2 (secs % 60)
    ++ (if micro = 0 then "" else "." ++ pad6 micro)
    ++ "+00:00"

/-! ## `alerts/transaction_alerts.py` — the fraud rule engine

`fraud_detection` consumes the cleaned rows produced by
`validate_transaction_row`; a `Row` holds exactly the fields the engine
reads (`r.get(...)` on anything else never happens).  `Amount` is the
validator's parsed float-or-`None`; `Timestamp` is a string the engine
re-parses with `dateutil.parser.parse`. -/

structure Row where
  TransactionID : Option String := none
  AccountNumber : Option String := none
  CustomerID : Option String := none
  Amount : Option Dec := none
  Timestamp : Option String := none
  Location : Option String := none
  DeviceID : Option String := none
deriving DecidableEq

/-- An alert dict.  The source builds dicts with per-rule key sets; the
structure carries the union, with `none`/`[]` for keys a rule does not set. -/
structure Alert where
  alert_id : String
  type : String
  reason : String
  transaction : Option Row := none
  transactions : List Row := []
  locations : List (String × String) := []
deriving DecidableEq

/-- `HIGH_VALUE_THRESHOLD = 50000.0`. -/
def HIGH_VALUE_THRESHOLD : Dec := ⟨50000, 0⟩

/-- `timedelta(minutes=VELOCITY_WINDOW_MINUTES)` with
`VELOCITY_WINDOW_MINUTES = 2`, in microseconds. -/
def VELOCITY_WINDOW_MICROS : Int := 120000000

/-- `VELOCITY_TXN_COUNT = 10`. -/
def VELOCITY_TXN_COUNT : Nat := 10

/-- `timedelta(minutes=10)` in microseconds (geo rule and drain rule). -/
def TEN_MINUTES_MICROS : Int := 600000000

/-- `100000` (drain threshold). -/
def DRAIN_THRESHOLD : Dec := ⟨100000, 0⟩

/-- `float(r.get("Amount") or 0)`: a missing amount — and, via Python's
falsy `0.0 or 0`, a zero amount — becomes `0`; a present float passes
through `float` unchanged.  With `Amount : Option Dec` the `try/except`
around the call can never fire. -/
def amtOf (r : Row) : Dec :=
  match r.Amount with
  | none => ⟨0, 0⟩
  | some a => if a.m = 0 then ⟨0, 0⟩ else a

/-- Rule 1's alert for one qualifying row. -/
def mkHighValueAlert (r : Row) : Alert :=
  { alert_id := "ALERT_HIGHVALUE_" ++ pyOptStr r.TransactionID
    type := "HIGH_VALUE"
    reason := "Transaction amount " ++ (PyVal.vNum (amtOf r)).render
      ++ " exceeds threshold " ++ (PyVal.vNum HIGH_VALUE_THRESHOLD).render
    transaction := some r }

/-- Rule 1: one `HIGH_VALUE` alert per row whose amount reaches the
threshold. -/
def highValueAlerts (parsed_rows : List Row) : List Alert :=
  parsed_rows.filterMap (fun r =>
    if Dec.le HIGH_VALUE_THRESHOLD (amtOf r) then some (mkHighValueAlert r) else none)

/-- The grouping key: `r.get("CustomerID") or r.get("AccountNumber") or
"UNKNOWN"` (Python truthiness: empty strings fall through). -/
def cidOf (r : Row) : String :=
  match pyOrStr r.CustomerID r.AccountNumber with
  | some s => if s = "" then "UNKNOWN" else s
  | none => "UNKNOWN"

/-- The engine's own timestamp parse of a row
(`date_parser.parse(r.get("Timestamp"))`; a missing value raises inside the
`try` just like an unparseable string and the row is skipped). -/
def rowTs (r : Row) : Option Int :=
  match r.Timestamp with
  | none => none
  | some s => dateutilParse s

/-- The rows that survive the `try/except` around timestamp parsing, paired
with their parsed instants, in input order. -/
def parsedRows (parsed_rows : List Row) : List (Int × Row) :=
  parsed_rows.filterMap (fun r => (rowTs r).map (fun t => (t, r)))

/-- First-occurrence key order of a list under a key function, with the
accumulator holding the keys already seen — the key order of a Python dict
built with `setdefault`. -/
def firstKeysAux (key : α → κ) [DecidableEq κ] (seen : List κ) : List α → List κ
  | [] => []
  | x :: xs =>
    if key x ∈ seen then firstKeysAux key seen xs
    else key x :: firstKeysAux key (key x :: seen) xs

/-- First-occurrence key order of a list under a key function. -/
def firstKeys (key : α → κ) [DecidableEq κ] (l : List α) : List κ :=
  firstKeysAux key [] l

/-- The members of `l` carrying key `k`, in order. -/
def groupOf (key : α → κ) [DecidableEq κ] (l : List α) (k : κ) : List α :=
  l.filter (fun x => decide (key x = k))

/-- A Python dict built by `d.setdefault(key(x), []).append(x)` over `l`:
keys in first-occurrence order, each bound to its members in input order. -/
def groupBy (key : α → κ) [DecidableEq κ] (l : List α) : List (κ × List α) :=
  (firstKeys key l).map (fun k => (k, groupOf key l k))

/-- `by_customer`: parse-surviving rows grouped by customer key. -/
def byCustomer (parsed_rows : List Row) : List (String × List (Int × Row)) :=
  groupBy (fun p => cidOf p.2) (parsedRows parsed_rows)

/-- Order on timestamped rows used by `items.sort(key=lambda x: x[0])`. -/
def tsLe (p q : Int × Row) : Prop := p.1 ≤ q.1

instance : DecidableRel tsLe := fun p q => inferInstanceAs (Decidable (p.1 ≤ q.1))

instance : IsTotal (Int × Row) tsLe := ⟨fun p q => Int.le_total p.1 q.1⟩

instance : IsTrans (Int × Row) tsLe := ⟨fun _ _ _ h1 h2 => le_trans h1 h2⟩

/-- `items.sort(key=lambda x: x[0])`: a stable sort by timestamp (insertion
sort with a non-strict comparison is stable, like Python's sort). -/
def sortItems (items : List (Int × Row)) : List (Int × Row) :=
  List.insertionSort tsLe items

/-- The inner `while` of the velocity scan: from position `i+1`, transactions
are counted while their timestamp stays within the window of `t = ts[i]`;
the first one outside ends the count. -/
def velocityBurst (t : Int) (rest : List (Int × Row)) : List (Int × Row) :=
  rest.takeWhile (fun p => decide (p.1 - t ≤ VELOCITY_WINDOW_MICROS))

/-- Rule 2's alert for one window start. -/
def mkVelocityAlert (cid : String) (t : Int) (burst : List (Int × Row)) : Alert :=
  { alert_id := "ALERT_VELOCITY_" ++ cid ++ "_" ++ isoOfMicros t
    type := "VELOCITY_ATTACK"
    reason := toString burst.length ++ " transactions within 2 minutes"
    transactions := burst.map (fun p => p.2) }

/-- Rule 2's scan over one (sorted) group: every index is a window start;
after an alert the scan continues from the next index (no skipping), so
overlapping bursts each report. -/
def velocityPass (cid : String) : List (Int × Row) → List Alert
  | [] => []
  | p :: rest =>
    let burst := p :: velocityBurst p.1 rest
    (if VELOCITY_TXN_COUNT ≤ burst.length then [mkVelocityAlert cid p.1 burst] else [])
      ++ velocityPass cid rest

/-- Order + append of lists drawn from each member (`for ... in` loops that
extend one alert list). -/
def joinMap (f : α → List β) : List α → List β
  | [] => []
  | x :: xs => f x ++ joinMap f xs

/-- Rule 3's location pairs for one group: timestamps of rows with a truthy
`Location`, grouped by location in first-seen order, flattened, then stably
sorted by timestamp. -/
def locTsLe (p q : String × Int) : Prop := p.2 ≤ q.2

instance : DecidableRel locTsLe := fun p q => inferInstanceAs (Decidable (p.2 ≤ q.2))

instance : IsTotal (String × Int) locTsLe := ⟨fun p q => Int.le_total p.2 q.2⟩

instance : IsTrans (String × Int) locTsLe := ⟨fun _ _ _ h1 h2 => le_trans h1 h2⟩

/-- `loc_map` flattened to `(location, timestamp)` pairs and sorted by time. -/
def geoTimestamps (items : List (Int × Row)) : List (String × Int) :=
  let pairs := items.filterMap (fun p =>
    match p.2.Location with
    | none => none
    | some loc => if loc = "" then none else some (loc, p.1))
  List.insertionSort locTsLe
    (joinMap (fun g => g.2) (groupBy (fun q => q.1) pairs))

/-- Rule 3's alert for one impossible-travel pair.  `txn1`/`txn2` recover the
full rows by `next((r for ts, r in items if ts == t), None)`. -/
def mkGeoAlert (cid : String) (items : List (Int × Row))
    (loc1 : String) (t1 : Int) (loc2 : String) (t2 : Int) : Alert :=
  let txn1 := (items.find? (fun p => decide (p.1 = t1))).map (fun p => p.2)
  let txn2 := (items.find? (fun p => decide (p.1 = t2))).map (fun p => p.2)
  { alert_id := "ALERT_GEO_" ++ cid ++ "_" ++ isoOfMicros t1
    type := "GEO_LOCATION_SWITCH"
    reason := "Transaction from " ++ loc1 ++ " → " ++ loc2 ++ " within 10 minutes"
    transactions :=
      match txn1, txn2 with
      | some a, some b => [a, b]
      | _, _ => []
    locations := [(loc1, isoOfMicros t1), (loc2, isoOfMicros t2)] }

/-- Rule 3's pairwise scan: for each `i`, every later `j` with a different
location within ten minutes raises an alert. -/
def geoPass (cid : String) (items : List (Int × Row)) :
    List (String × Int) → List Alert
  | [] => []
  | (loc1, t1) :: rest =>
    rest.filterMap (fun lt =>
      if loc1 ≠ lt.1 ∧ lt.2 - t1 ≤ TEN_MINUTES_MICROS then
        some (mkGeoAlert cid items loc1 t1 lt.1 lt.2)
      else none)
      ++ geoPass cid items rest

/-- Rule 4's alert when the running total trips the threshold at instant
`t`; its payload lists the whole sorted group. -/
def mkDrainAlert (cid : String) (t : Int) (total : Dec)
    (itemsSorted : List (Int × Row)) : Alert :=
  { alert_id := "ALERT_BALANCE_DRAIN_" ++ cid ++ "_" ++ isoOfMicros t
    type := "BALANCE_DRAIN"
    reason := "Total withdrawals " ++ (PyVal.vNum total).render ++ " in 10 minutes"
    transactions := itemsSorted.map (fun p => p.2) }

/-- Rule 4's loop over one sorted group: accumulate amounts; on the first
transaction where the total reaches the threshold while still within ten
minutes of the group's first timestamp, alert and `break`. -/
def drainLoop (cid : String) (itemsSorted : List (Int × Row)) (start : Int)
    (total : Dec) : List (Int × Row) → List Alert
  | [] => []
  | (t, r) :: rest =>
    let tot := total.add (amtOf r)
    if t - start ≤ TEN_MINUTES_MICROS ∧ Dec.le DRAIN_THRESHOLD tot then
      [mkDrainAlert cid t tot itemsSorted]
    else drainLoop cid itemsSorted start tot rest

/-- Rule 4 for one group (`sorted(items, ...)` re-sorts the already sorted
list; the empty group is skipped). -/
def drainGroup (cid : String) (items : List (Int × Row)) : List Alert :=
  let s := sortItems items
  match s with
  | [] => []
  | (t0, _) :: _ => drainLoop cid s t0 ⟨0, 0⟩ s

/-- `fraud_detection`: rule 1 over all rows, then rules 2–4 over the
customer groups.  Rule 2 sorts each group's list in place, so rules 3 and 4
see the sorted lists. -/
def fraud_detection (parsed_rows : List Row) : List Alert :=
  let groups := byCustomer parsed_rows
  highValueAlerts parsed_rows
    ++ joinMap (fun g => velocityPass g.1 (sortItems g.2)) groups
    ++ joinMap (fun g =>
        let s := sortItems g.2
        geoPass g.1 s (geoTimestamps s)) groups
    ++ joinMap (fun g => drainGroup g.1 g.2) groups

/-! ## `validator/transaction_validator.py` -/

/-- A raw CSV row as `csv.DictReader` yields it: header-aligned
string-or-missing values (a short row leaves `None`s). -/
def RawRow := List (String × Option String)

/-- Keys stripped, values stripped: the dict comprehension
`{ k.strip(): strip(v) for k, v in row.items() }`.  Duplicate stripped keys
collapse with the last value winning, as in a Python dict comprehension;
`dictGet` reads accordingly. -/
def cleanKV (row : RawRow) : List (String × Option String) :=
  row.map (fun kv => (pyStrip kv.1, kv.2.map pyStrip))

/-- `d.get(k)` with last-binding-wins semantics. -/
def dictGet (d : List (String × Option String)) (k : String) : Option String :=
  match (d.reverse.find? (fun kv => decide (kv.1 = k))) with
  | none => none
  | some kv => kv.2

/-- An `or`-chain of dict lookups under several header aliases; Python
truthiness makes `None` and `""` fall through.  When every alias is falsy
the chain yields its last member, which the callers treat exactly as they
treat `None` (`not x`, `to_float`, `parse_ts`, `_normalize_txn_type` all
identify falsy values), so the model returns `none` for it. -/
def aliasChain (d : List (String × Option String)) : List String → Option String
  | [] => none
  | k :: ks =>
    let v := dictGet d k
    if truthyStr v then v else aliasChain d ks

/-- `_normalize_txn_type`: falsy input gives `""`; otherwise trim, lowercase
and drop spaces, dashes and underscores. -/
def normalize_txn_type (raw : Option String) : String :=
  match raw with
  | none => ""
  | some s =>
    if s = "" then ""
    else ⟨((pyStrip s).toLower).data.filter
      (fun c => c ≠ ' ' && c ≠ '-' && c ≠ '_')⟩

/-- The `TransactionID` alias resolution. -/
def resolvedTxnId (row : RawRow) : Option String :=
  aliasChain (cleanKV row) ["TransactionID", "TxID", "transactionid", "transaction_id"]

/-- The transaction-type alias resolution, normalized. -/
def resolvedTypeToken (row : RawRow) : String :=
  normalize_txn_type
    (aliasChain (cleanKV row) ["TransactionType", "Type", "transactiontype", "type"])

/-- The amount alias resolution, coerced with `to_float`. -/
def resolvedAmount (row : RawRow) : Option Dec :=
  to_floatOS
    (aliasChain (cleanKV row) ["TransactionAmount", "Amount", "transactionamount", "amount"])

/-- The timestamp alias resolution, parsed with `parse_ts`. -/
def resolvedTimestamp (row : RawRow) : Option Int :=
  parse_ts
    (aliasChain (cleanKV row) ["TransactionTime", "Timestamp", "transactiontime", "timestamp"])

/-- The normalized tokens allowed to carry a zero amount. -/
def zero_allowed : List String :=
  ["ministatement", "ministmt", "balanceenquiry", "balanceinquiry", "balanceenq", "balance"]

/-- `d[k] = v` on a dict. -/
def dictSet (d : List (String × PyVal)) (k : String) (v : PyVal) :
    List (String × PyVal) :=
  if d.any (fun kv => decide (kv.1 = k)) then
    d.map (fun kv => if kv.1 = k then (kv.1, v) else kv)
  else d ++ [(k, v)]

/-- `validate_transaction_row(row, source_type)`: the error list, in the
order the source appends them, and the cleaned dict (original stripped
entries with `TransactionID`, `Amount` and `Timestamp` overwritten by their
canonical forms).  `source_type` is accepted and unused, as in the source. -/
def validate_transaction_row (row : RawRow) (_sourceType : String) :
    List String × List (String × PyVal) :=
  let cleaned0 : List (String × PyVal) :=
    (cleanKV row).map (fun kv =>
      (kv.1, match kv.2 with | none => PyVal.vNone | some s => PyVal.vStr s))
  let txnId := resolvedTxnId row
  let errId : List String := if truthyStr txnId then [] else ["Missing TransactionID"]
  let cleaned1 :=
    match txnId with
    | none => cleaned0
    | some s => dictSet cleaned0 "TransactionID" (PyVal.vStr (pyStrip s))
  let token := resolvedTypeToken row
  let amtVal := resolvedAmount row
  let cleaned2 := dictSet cleaned1 "Amount"
    (match amtVal with | none => PyVal.vNone | some q => PyVal.vNum q)
  let errAmt : List String :=
    match amtVal with
    | none => ["Invalid Amount"]
    | some q =>
      if Dec.le q ⟨0, 0⟩ ∧ token ∉ zero_allowed then ["Invalid or non-positive Amount"]
      else []
  let ts := resolvedTimestamp row
  let errTs : List String :=
    match ts with | none => ["Invalid Timestamp"] | some _ => []
  let cleaned3 :=
    match ts with
    | none => cleaned2
    | some t => dictSet cleaned2 "Timestamp" (PyVal.vStr (isoOfMicros t))
  (errId ++ errAmt ++ errTs, cleaned3)
  -- `sourceType` is threaded for signature fidelity only
  -- (the source keeps it "for future use").

/-! ## `alerts/profile_alerts.py` -/

/-- The `Account` sub-document fields the profile rules read.  `Balance` may
arrive as a string or as a stored number, hence `PyVal`. -/
structure AccountSub where
  KYC_Done : Option String := none
  KYC_DocumentVerificationStatus : Option String := none
  AccountStatus : Option String := none
  Balance : PyVal := .vNone
  AccountOpenDate : Option String := none
deriving DecidableEq

/-- An account document: `{AccountNumber, CustomerID, Account: {...}}`
(`account_doc.get("Account", {})` makes a missing subdocument behave as an
empty one, i.e. all fields `none`). -/
structure AccountDoc where
  AccountNumber : Option String := none
  CustomerID : Option String := none
  Account : AccountSub := {}
deriving DecidableEq

/-- The customer document field the rules read.  A `none` document models
both Python `None` and the empty dict — the two falsy cases of
`if customer_doc:`. -/
structure CustomerDoc where
  AnnualIncome : PyVal := .vNone
deriving DecidableEq

/-- A profile alert (`id`, `type`, account keys, `reason`; the payload is
the account subdocument or the numbers shown below). -/
inductive ProfilePayload where
  | acc (a : AccountSub)
  | balanceIncome (balance income : Dec)
  | ageBalance (ageYears365 : Int) (balance : Dec)
deriving DecidableEq

structure PAlert where
  id : String
  type : String
  AccountNumber : Option String
  CustomerID : Option String
  reason : String
  payload : ProfilePayload
deriving DecidableEq

/-- `(x or "").upper()` for an optional string. -/
def upperOrEmpty (v : Option String) : String :=
  match v with
  | none => ""
  | some s => s.toUpper

/-- `to_float(x) or 0` — Python's `or` also flattens a parsed `0.0` to `0`,
which has the same value. -/
def floatOrZero (v : PyVal) : Dec :=
  match to_float v with
  | none => ⟨0, 0⟩
  | some q => if q.m = 0 then ⟨0, 0⟩ else q

/-- Rule 1 of `generate_profile_alerts`: KYC not done. -/
def profileKycNotDone (account_doc : AccountDoc) : List PAlert :=
  if upperOrEmpty account_doc.Account.KYC_Done ∈ ["NO", "FALSE", "0", "N"] then
    [{ id := "ALERT_KYC_NOT_DONE_" ++ pyOptStr account_doc.AccountNumber
       type := "KYC_NOT_DONE"
       AccountNumber := account_doc.AccountNumber
       CustomerID := account_doc.CustomerID
       reason := "KYC is not completed", payload := .acc account_doc.Account }]
  else []

/-- Rule 2: KYC document verification failed. -/
def profileKycVerificationFailed (account_doc : AccountDoc) : List PAlert :=
  if upperOrEmpty account_doc.Account.KYC_DocumentVerificationStatus = "FAILED" then
    [{ id := "ALERT_KYC_VERIFICATION_FAILED_" ++ pyOptStr account_doc.AccountNumber
       type := "KYC_VERIFICATION_FAILED"
       AccountNumber := account_doc.AccountNumber
       CustomerID := account_doc.CustomerID
       reason := "KYC verification failed", payload := .acc account_doc.Account }]
  else []

/-- Rule 3: dormant or inactive account. -/
def profileDormant (account_doc : AccountDoc) : List PAlert :=
  if upperOrEmpty account_doc.Account.AccountStatus ∈ ["DORMANT", "INACTIVE"] then
    [{ id := "ALERT_ACCOUNT_DORMANT_" ++ pyOptStr account_doc.AccountNumber
       type := "ACCOUNT_DORMANT"
       AccountNumber := account_doc.AccountNumber
       CustomerID := account_doc.CustomerID
       reason := "Account is dormant or inactive", payload := .acc account_doc.Account }]
  else []

/-- Rule 4: closed account. -/
def profileClosed (account_doc : AccountDoc) : List PAlert :=
  if upperOrEmpty account_doc.Account.AccountStatus = "CLOSED" then
    [{ id := "ALERT_ACCOUNT_CLOSED_" ++ pyOptStr account_doc.AccountNumber
       type := "ACCOUNT_CLOSED"
       AccountNumber := account_doc.AccountNumber
       CustomerID := account_doc.CustomerID
       reason := "Account is closed", payload := .acc account_doc.Account }]
  else []

/-- Rule 5: balance far above declared income (only when a truthy customer
document was passed). -/
def profileBalanceIncome (account_doc : AccountDoc)
    (customer_doc : Option CustomerDoc) : List PAlert :=
  match customer_doc with
  | none => []
  | some cd =>
    let bal := floatOrZero account_doc.Account.Balance
    let inc := floatOrZero cd.AnnualIncome
    if Dec.lt ⟨0, 0⟩ inc ∧ Dec.lt (inc.mul ⟨10, 0⟩) bal then
      [{ id := "ALERT_BALANCE_INCOME_MISMATCH_" ++ pyOptStr account_doc.AccountNumber
         type := "BALANCE_INCOME_MISMATCH"
         AccountNumber := account_doc.AccountNumber
         CustomerID := account_doc.CustomerID
         reason := "Balance " ++ (PyVal.vNum bal).render
           ++ " greatly exceeds declared income " ++ (PyVal.vNum inc).render
         payload := .balanceIncome bal inc }]
    else []

/-- Rule 6: very old account with a low balance.  The source reads the clock
(`datetime.now(timezone.utc)`); the instant is passed in as `now`.
`age_years = (now - open_date).days / 365` uses `timedelta.days` (floor) and
true division, so `age_years >= 5` is exactly `days >= 5 * 365`. -/
def profileStale (account_doc : AccountDoc) (now : Int) : List PAlert :=
  match parse_ts account_doc.Account.AccountOpenDate with
  | none => []
  | some openT =>
    if 5 * 365 ≤ Int.ediv (now - openT) 86400000000
        ∧ Dec.lt (floatOrZero account_doc.Account.Balance) ⟨100, 0⟩ then
      [{ id := "ALERT_STALE_ACCOUNT_" ++ pyOptStr account_doc.AccountNumber
         type := "STALE_ACCOUNT"
         AccountNumber := account_doc.AccountNumber
         CustomerID := account_doc.CustomerID
         reason := "Account is very old and balance is too low"
         payload := .ageBalance (Int.ediv (now - openT) 86400000000)
           (floatOrZero account_doc.Account.Balance) }]
    else []

/-- `generate_profile_alerts(account_doc, customer_doc)`: the six
independent checks, appended in source order. -/
def generate_profile_alerts (account_doc : AccountDoc)
    (customer_doc : Option CustomerDoc) (now : Int) : List PAlert :=
  profileKycNotDone account_doc
    ++ profileKycVerificationFailed account_doc
    ++ profileDormant account_doc
    ++ profileClosed account_doc
    ++ profileBalanceIncome account_doc customer_doc
    ++ profileStale account_doc now

/-! ## Concrete scenario data and derived notions used in the statements -/

/-- The running total of rule 4 after `n` transactions of a (sorted) group:
amounts folded left, exactly as the loop accumulates them. -/
def prefixAmt (s : List (Int × Row)) (n : Nat) : Dec :=
  ((s.take n).map (fun p => amtOf p.2)).foldl Dec.add ⟨0, 0⟩

/-- The spec's high-value scenario: one valid ATM row with amount 75000. -/
def atmScenarioRow : Row :=
  { TransactionID := some "TXN75", AccountNumber := some "ACC1"
    CustomerID := some "CUST1", Amount := some ⟨75000, 0⟩
    Timestamp := some "2024-01-01T10:00:00+00:00", Location := some "Mumbai" }

/-- The spec's velocity scenario: twelve UPI rows of one customer inside a
90-second span (one every 4 seconds). -/
def velocityBatch : List Row :=
  (List.range 12).map (fun i =>
    { TransactionID := some ("TV" ++ toString i), AccountNumber := some "ACC2"
      CustomerID := some "CUST2", Amount := some ⟨100, 0⟩
      Timestamp := some ("2024-01-01T10:00:" ++ pad2 (i * 4) ++ "+00:00") })

/-- A drain scenario: two transactions of one customer totalling 110000
five minutes apart. -/
def drainBatch : List Row :=
  [{ TransactionID := some "TD1", CustomerID := some "CUST3"
     Amount := some ⟨60000, 0⟩, Timestamp := some "2024-01-01T10:00:00+00:00" },
   { TransactionID := some "TD2", CustomerID := some "CUST3"
     Amount := some ⟨50000, 0⟩, Timestamp := some "2024-01-01T10:05:00+00:00" }]

/-- Four small transactions sharing one device (timestamps unparseable, so
no grouping rule applies and no rule at all fires). -/
def deviceBatch : List Row :=
  [{ TransactionID := some "TD1", DeviceID := some "D1", Amount := some ⟨10, 0⟩ },
   { TransactionID := some "TD2", DeviceID := some "D1", Amount := some ⟨10, 0⟩ },
   { TransactionID := some "TD3", DeviceID := some "D1", Amount := some ⟨10, 0⟩ },
   { TransactionID := some "TD4", DeviceID := some "D1", Amount := some ⟨10, 0⟩ }]

/-- A high-value row whose timestamp does not parse. -/
def badTsRow : Row :=
  { TransactionID := some "TX10", CustomerID := some "CUST10"
    Amount := some ⟨75000, 0⟩, Timestamp := some "not-a-date" }

/-- The spec's profile scenario: balance 600000 against income 50000. -/
def scenarioAccountDoc : AccountDoc :=
  { AccountNumber := some "ACC9", CustomerID := some "CUST9"
    Account := { Balance := .vStr "600000" } }

/-- The customer document of the profile scenario. -/
def scenarioCustomerDoc : CustomerDoc := { AnnualIncome := .vStr "50000" }

/-- A raw CSV row with an unparseable amount (validator witness data). -/
def badAmountRawRow : RawRow :=
  [("TransactionID", some "T1"), ("Amount", some "abc"),
   ("Timestamp", some "2024-01-01T10:00:00")]

/-! ## Supporting lemmas -/

theorem pyStripChars_as_rdropWhile (l : List Char) :
    pyStripChars l = List.rdropWhile isPySpace (List.dropWhile isPySpace l) := rfl

theorem mem_pyStripChars {c : Char} {l : List Char} (h : c ∈ pyStripChars l) :
    c ∈ l := by
  rw [pyStripChars_as_rdropWhile] at h
  exact (List.dropWhile_sublist isPySpace).mem
    ((List.rdropWhile_prefix isPySpace (List.dropWhile isPySpace l)).sublist.mem h)

theorem pyStripChars_idem (l : List Char) :
    pyStripChars (pyStripChars l) = pyStripChars l := by
  rw [pyStripChars_as_rdropWhile, pyStripChars_as_rdropWhile]
  have hx : List.dropWhile isPySpace
      (List.rdropWhile isPySpace (List.dropWhile isPySpace l))
      = List.rdropWhile isPySpace (List.dropWhile isPySpace l) := by
    rcases hpre : List.rdropWhile isPySpace (List.dropWhile isPySpace l) with _ | ⟨a, t⟩
    · simp
    · have hpfx := List.rdropWhile_prefix isPySpace (List.dropWhile isPySpace l)
      rw [hpre] at hpfx
      obtain ⟨t2, ht2⟩ := hpfx
      have hdl : List.dropWhile isPySpace l = a :: (t ++ t2) := by
        rw [← ht2]; rfl
      have hidem := List.dropWhile_idempotent (p := isPySpace) (l := l)
      rw [hdl] at hidem
      cases hpa : isPySpace a with
      | false => simp [List.dropWhile_cons, hpa]
      | true =>
        have hidem2 : List.dropWhile isPySpace (t ++ t2) = a :: (t ++ t2) := by
          simpa [List.dropWhile_cons, hpa] using hidem
        have hlen := congrArg List.length hidem2
        have hle := (List.dropWhile_sublist (l := t ++ t2) isPySpace).length_le
        rw [List.length_cons] at hlen
        omega
  rw [hx, List.rdropWhile_idempotent]

theorem pyStrip_idem (s : String) : pyStrip (pyStrip s) = pyStrip s := by
  show (⟨pyStripChars (pyStripChars s.data)⟩ : String) = ⟨pyStripChars s.data⟩
  rw [pyStripChars_idem]

theorem removeCommas_of_no_comma {s : String} (h : ∀ c ∈ s.data, c ≠ ',') :
    removeCommas s = s := by
  have : s.data.filter (fun c => c ≠ ',') = s.data :=
    List.filter_eq_self.mpr (fun c hc => by simpa using h c hc)
  show (⟨s.data.filter (fun c => c ≠ ',')⟩ : String) = s
  rw [this]

theorem cleaned_fixed (s : String) :
    pyStrip (removeCommas (pyStrip (removeCommas s)))
      = pyStrip (removeCommas s) := by
  have hnc : ∀ c ∈ (pyStrip (removeCommas s)).data, c ≠ ',' := by
    intro c hc
    have hc2 : c ∈ (removeCommas s).data := mem_pyStripChars hc
    have : c ∈ s.data.filter (fun d => d ≠ ',') := hc2
    have := List.of_mem_filter this
    simpa using this
  rw [removeCommas_of_no_comma hnc]
  exact pyStrip_idem (removeCommas s)

/-! ## Claim C5 — timestamp parsing of `"01-02-2024 14.16"` -/

/-- C5 counterexample: the claim says `parse_ts("01-02-2024 14.16")` succeeds
with minute 16 (after a dot-to-colon fix, day-first).  The source applies no
dot-to-colon correction and calls `dateutil.parser.parse` with its defaults,
which rejects the dot-separated clock: the parse returns `None`. -/
theorem c5_parse_ts_dot_counterexample :
    parse_ts (some "01-02-2024 14.16") = none := by decide

/-- C5 (amended): `parse_ts("01-02-2024 14.16")` fails (no dot-to-colon
correction exists); written with a colon, `"01-02-2024 14:16"` parses with
minute 16 but is resolved month-first as 2 January 2024 — ambiguous numeric
dates are not given a day-first preference. -/
theorem c5_parse_ts_monthfirst :
    parse_ts (some "01-02-2024 14.16") = none
    ∧ parse_ts (some "01-02-2024 14:16") = some (civilMicros 2024 1 2 14 16 0)
    ∧ Int.emod (Int.ediv (civilMicros 2024 1 2 14 16 0) 60000000) 60 = 16
    ∧ parse_ts (some "01-02-2024") = some (civilMicros 2024 1 2 0 0 0) := by
  refine ⟨by decide, by decide, by decide, by decide⟩

/-! ## Claim C6 — `to_float` -/

/-- C6: `to_float("1,234.56") = 1234.56`, `to_float("abc")` and
`to_float(None)` are invalid; for every string, commas and surrounding
whitespace are removed before the numeric parse (parsing the cleaned string
changes nothing), and a string that cleans to empty is invalid. -/
theorem c6_to_float_spec :
    (to_float (.vStr "1,234.56")).map Dec.toRat = some (1234.56 : ℚ)
    ∧ to_float (.vStr "abc") = none
    ∧ to_float .vNone = none
    ∧ (∀ s : String, to_float (.vStr s) = to_float (.vStr (pyStrip (removeCommas s))))
    ∧ (∀ s : String, pyStrip (removeCommas s) = "" → to_float (.vStr s) = none) := by
  refine ⟨?_, by decide, by decide, ?_, ?_⟩
  · have h : to_float (.vStr "1,234.56") = some ⟨123456, 2⟩ := by decide
    rw [h]
    show some (Dec.toRat ⟨123456, 2⟩) = some (1234.56 : ℚ)
    have : Dec.toRat ⟨123456, 2⟩ = (1234.56 : ℚ) := by
      rw [Dec.toRat]; norm_num
    rw [this]
  · intro s
    show (if pyStrip (removeCommas s) = "" then none
          else pyFloatOfString (pyStrip (removeCommas s)))
      = (if pyStrip (removeCommas (pyStrip (removeCommas s))) = "" then none
         else pyFloatOfString (pyStrip (removeCommas (pyStrip (removeCommas s)))))
    rw [cleaned_fixed s]
  · intro s h
    show (if pyStrip (removeCommas s) = "" then none
          else pyFloatOfString (pyStrip (removeCommas s))) = none
    rw [h]
    rfl

/-- C6 witness: the universal parts applied at `" 1,234.56 "` and at a
string of commas and blanks that cleans to empty. -/
theorem c6_to_float_spec_witness :
    to_float (.vStr " 1,234.56 ") = to_float (.vStr (pyStrip (removeCommas " 1,234.56 ")))
    ∧ pyStrip (removeCommas " ,, ") = ""
    ∧ to_float (.vStr " ,, ") = none :=
  ⟨c6_to_float_spec.2.2.2.1 " 1,234.56 ", by decide,
   c6_to_float_spec.2.2.2.2 " ,, " (by decide)⟩

/-! ## Claim C8 — determinism / idempotent re-run of the engine -/

/-- C8: `fraud_detection` is a pure function of its input rows — it reads no
clock, counter or randomness and keeps no state between calls — so two runs
on the identical batch yield alert lists with identical `alert_id` values
(the per-run alert ids are derived from the rows alone, so a re-run
re-raises the same ids rather than minting new ones). -/
theorem c8_fraud_detection_deterministic :
    ∀ rows1 rows2 : List Row, rows1 = rows2 →
      (fraud_detection rows1).map (fun a => a.alert_id)
        = (fraud_detection rows2).map (fun a => a.alert_id) := by
  intro rows1 rows2 h
  rw [h]

/-- C8 witness: two runs on the one-row high-value batch produce the same
single id. -/
theorem c8_fraud_detection_deterministic_witness :
    (fraud_detection [atmScenarioRow]).map (fun a => a.alert_id)
      = (fraud_detection [atmScenarioRow]).map (fun a => a.alert_id)
    ∧ (fraud_detection [atmScenarioRow]).map (fun a => a.alert_id)
      = ["ALERT_HIGHVALUE_TXN75"] :=
  ⟨c8_fraud_detection_deterministic [atmScenarioRow] [atmScenarioRow] rfl, by decide⟩

/-! ## Engine lemmas -/

theorem mem_joinMap {f : α → List β} {b : β} :
    ∀ {l : List α}, b ∈ joinMap f l ↔ ∃ a ∈ l, b ∈ f a := by
  intro l
  induction l with
  | nil => simp [joinMap]
  | cons x xs ih =>
    simp only [joinMap, List.mem_append, ih, List.mem_cons]
    constructor
    · rintro (h | ⟨a, ha, hb⟩)
      · exact ⟨x, Or.inl rfl, h⟩
      · exact ⟨a, Or.inr ha, hb⟩
    · rintro ⟨a, ha | ha, hb⟩
      · exact Or.inl (ha ▸ hb)
      · exact Or.inr ⟨a, ha, hb⟩

theorem mem_groupBy {key : α → κ} [DecidableEq κ] {l : List α}
    {k : κ} {g : List α} (h : (k, g) ∈ groupBy key l) : g = groupOf key l k := by
  rw [groupBy] at h
  obtain ⟨k2, _, hk⟩ := List.mem_map.mp h
  cases hk
  rfl

theorem groupOf_subset {key : α → κ} [DecidableEq κ] {l : List α} {k : κ} {x : α}
    (h : x ∈ groupOf key l k) : x ∈ l :=
  List.mem_of_mem_filter h

theorem mem_firstKeysAux {key : α → κ} [DecidableEq κ] {k : κ} :
    ∀ {l : List α} {seen : List κ},
      k ∈ firstKeysAux key seen l ↔ k ∈ l.map key ∧ k ∉ seen := by
  intro l
  induction l with
  | nil => simp [firstKeysAux]
  | cons x xs ih =>
    intro seen
    rw [firstKeysAux]
    have hmap : k ∈ (x :: xs).map key ↔ k = key x ∨ k ∈ xs.map key := by
      rw [List.map_cons, List.mem_cons]
    by_cases hx : key x ∈ seen
    · rw [if_pos hx, ih, hmap]
      constructor
      · rintro ⟨h1, h2⟩
        exact ⟨Or.inr h1, h2⟩
      · rintro ⟨h1 | h1, h2⟩
        · exact absurd (h1 ▸ hx) h2
        · exact ⟨h1, h2⟩
    · rw [if_neg hx, List.mem_cons, ih, hmap]
      constructor
      · rintro (h | ⟨h1, h2⟩)
        · exact ⟨Or.inl h, h ▸ hx⟩
        · refine ⟨Or.inr h1, fun hk => h2 ?_⟩
          exact List.mem_cons_of_mem _ hk
      · rintro ⟨h1 | h1, h2⟩
        · exact Or.inl h1
        · by_cases hkx : k = key x
          · exact Or.inl hkx
          · refine Or.inr ⟨h1, fun hk => ?_⟩
            rcases List.mem_cons.mp hk with h | h
            · exact hkx h
            · exact h2 h

theorem mem_firstKeys {key : α → κ} [DecidableEq κ] {l : List α} {k : κ} :
    k ∈ firstKeys key l ↔ k ∈ l.map key := by
  rw [firstKeys, mem_firstKeysAux]
  simp

theorem group_mem_groupBy {key : α → κ} [DecidableEq κ] {l : List α} {k : κ}
    (h : k ∈ l.map key) : (k, groupOf key l k) ∈ groupBy key l :=
  List.mem_map.mpr ⟨k, mem_firstKeys.mpr h, rfl⟩

theorem highValueAlerts_eq (rows : List Row) :
    highValueAlerts rows
      = (rows.filter (fun r => decide (Dec.le HIGH_VALUE_THRESHOLD (amtOf r)))).map
          mkHighValueAlert := by
  induction rows with
  | nil => rfl
  | cons r rest ih =>
    rw [highValueAlerts] at ih ⊢
    rw [List.filterMap_cons]
    by_cases h : Dec.le HIGH_VALUE_THRESHOLD (amtOf r)
    · rw [if_pos h, List.filter_cons_of_pos (by simpa using h), List.map_cons]
      exact congrArg (List.cons (mkHighValueAlert r)) ih
    · rw [if_neg h, List.filter_cons_of_neg (by simpa using h)]
      exact ih

theorem mem_highValueAlerts_type {rows : List Row} {a : Alert}
    (h : a ∈ highValueAlerts rows) : a.type = "HIGH_VALUE" := by
  rw [highValueAlerts_eq] at h
  obtain ⟨r, _, hr⟩ := List.mem_map.mp h
  rw [← hr]
  rfl

theorem mem_velocityPass {cid : String} {a : Alert} :
    ∀ {s : List (Int × Row)}, a ∈ velocityPass cid s →
      a.type = "VELOCITY_ATTACK"
        ∧ ∀ r ∈ a.transactions, ∃ t, (t, r) ∈ s := by
  intro s
  induction s with
  | nil => intro h; cases h
  | cons p rest ih =>
    intro h
    rw [velocityPass] at h
    rcases List.mem_append.mp h with h1 | h1
    · have ha : a = mkVelocityAlert cid p.1 (p :: velocityBurst p.1 rest) := by
        by_cases hc : VELOCITY_TXN_COUNT ≤ (p :: velocityBurst p.1 rest).length
        · rw [if_pos hc] at h1
          exact (List.mem_singleton.mp h1)
        · rw [if_neg hc] at h1
          cases h1
      refine ⟨by rw [ha]; rfl, ?_⟩
      intro r hr
      rw [ha] at hr
      have hr2 : r ∈ (p :: velocityBurst p.1 rest).map (fun q => q.2) := hr
      obtain ⟨q, hq, hq2⟩ := List.mem_map.mp hr2
      refine ⟨q.1, ?_⟩
      rcases List.mem_cons.mp hq with h | h
      · rw [h] at hq2; rw [← hq2, h]; exact List.mem_cons_self p rest
      · have : q ∈ rest := (List.takeWhile_sublist _).mem h
        rw [← hq2]
        exact List.mem_cons_of_mem p this
    · obtain ⟨hty, horig⟩ := ih h1
      refine ⟨hty, fun r hr => ?_⟩
      obtain ⟨t, ht⟩ := horig r hr
      exact ⟨t, List.mem_cons_of_mem p ht⟩

theorem mem_geoPass {cid : String} {items : List (Int × Row)} {a : Alert} :
    ∀ {lts : List (String × Int)}, a ∈ geoPass cid items lts →
      a.type = "GEO_LOCATION_SWITCH"
        ∧ ∀ r ∈ a.transactions, ∃ t, (t, r) ∈ items := by
  intro lts
  induction lts with
  | nil => intro h; cases h
  | cons p rest ih =>
    intro h
    rw [geoPass] at h
    rcases List.mem_append.mp h with h1 | h1
    · obtain ⟨lt, _, hlt⟩ := List.mem_filterMap.mp h1
      by_cases hc : p.1 ≠ lt.1 ∧ lt.2 - p.2 ≤ TEN_MINUTES_MICROS
      · rw [if_pos hc] at hlt
        have ha : a = mkGeoAlert cid items p.1 p.2 lt.1 lt.2 := by
          injection hlt with h2
          exact h2.symm
        constructor
        · rw [ha]; rfl
        · intro r hr
          rw [ha] at hr
          rw [mkGeoAlert] at hr
          rcases hf1 : items.find? (fun q => decide (q.1 = p.2)) with _ | q1 <;>
            rcases hf2 : items.find? (fun q => decide (q.1 = lt.2)) with _ | q2 <;>
              simp only [hf1, hf2, Option.map_none, Option.map_some] at hr
          · cases hr
          · cases hr
          · cases hr
          · rcases List.mem_cons.mp hr with h | h
            · exact ⟨q1.1, by rw [h]; exact List.mem_of_find?_eq_some hf1⟩
            · rcases List.mem_cons.mp h with h2 | h2
              · exact ⟨q2.1, by rw [h2]; exact List.mem_of_find?_eq_some hf2⟩
              · cases h2
      · rw [if_neg hc] at hlt
        cases hlt
    · exact ih h1

theorem drainLoop_shape (cid : String) (all : List (Int × Row)) (start : Int) :
    ∀ (l : List (Int × Row)) (acc : Dec),
      drainLoop cid all start acc l = []
        ∨ ∃ t tot, drainLoop cid all start acc l = [mkDrainAlert cid t tot all] := by
  intro l
  induction l with
  | nil => intro acc; exact Or.inl rfl
  | cons p rest ih =>
    intro acc
    obtain ⟨t, r⟩ := p
    rw [drainLoop]
    by_cases hc : t - start ≤ TEN_MINUTES_MICROS
        ∧ Dec.le DRAIN_THRESHOLD (acc.add (amtOf r))
    · rw [if_pos hc]
      exact Or.inr ⟨t, acc.add (amtOf r), rfl⟩
    · rw [if_neg hc]
      exact ih (acc.add (amtOf r))

theorem mem_drainGroup {cid : String} {items : List (Int × Row)} {a : Alert}
    (h : a ∈ drainGroup cid items) :
    a.type = "BALANCE_DRAIN"
      ∧ ∀ r ∈ a.transactions, ∃ t, (t, r) ∈ sortItems items := by
  rw [drainGroup] at h
  rcases hs : sortItems items with _ | ⟨⟨t0, r0⟩, rest⟩
  · rw [hs] at h; cases h
  · rw [hs] at h
    have h2 : a ∈ drainLoop cid ((t0, r0) :: rest) t0 ⟨0, 0⟩ ((t0, r0) :: rest) := h
    rcases drainLoop_shape cid ((t0, r0) :: rest) t0 ((t0, r0) :: rest) ⟨0, 0⟩ with
      hnil | ⟨t, tot, heq⟩
    · rw [hnil] at h2; cases h2
    · rw [heq] at h2
      have ha : a = mkDrainAlert cid t tot ((t0, r0) :: rest) := List.mem_singleton.mp h2
      constructor
      · rw [ha]; rfl
      · intro r hr
        rw [ha] at hr
        have hr2 : r ∈ ((t0, r0) :: rest).map (fun q => q.2) := hr
        obtain ⟨q, hq, hq2⟩ := List.mem_map.mp hr2
        exact ⟨q.1, by rw [← hq2]; exact hq⟩

theorem mem_parsedRows {rows : List Row} {t : Int} {r : Row}
    (h : (t, r) ∈ parsedRows rows) : r ∈ rows ∧ rowTs r = some t := by
  rw [parsedRows] at h
  obtain ⟨r2, hr2, hmap⟩ := List.mem_filterMap.mp h
  rcases hts : rowTs r2 with _ | t2
  · rw [hts] at hmap; cases hmap
  · rw [hts] at hmap
    injection hmap with hp
    injection hp with hp1 hp2
    refine ⟨?_, ?_⟩
    · rw [← hp2]; exact hr2
    · rw [← hp2, hts, hp1]

theorem mem_sortItems {items : List (Int × Row)} {p : Int × Row} :
    p ∈ sortItems items ↔ p ∈ items :=
  (List.perm_insertionSort tsLe items).mem_iff

theorem fraud_detection_parts (rows : List Row) :
    fraud_detection rows
      = highValueAlerts rows
        ++ (joinMap (fun g => velocityPass g.1 (sortItems g.2)) (byCustomer rows)
        ++ (joinMap (fun g => geoPass g.1 (sortItems g.2) (geoTimestamps (sortItems g.2)))
              (byCustomer rows)
        ++ joinMap (fun g => drainGroup g.1 g.2) (byCustomer rows))) := by
  rw [fraud_detection]
  rw [List.append_assoc, List.append_assoc]

theorem grouped_row_parses {rows : List Row} {cid : String} {gl : List (Int × Row)}
    (hg : (cid, gl) ∈ byCustomer rows) {t : Int} {r : Row} (ht : (t, r) ∈ gl) :
    rowTs r = some t := by
  have hgl := mem_groupBy hg
  rw [hgl] at ht
  exact (mem_parsedRows (groupOf_subset ht)).2

/-! ## Claim C1 — the high-value rule -/

/-- C1: the `HIGH_VALUE` alerts of a batch are exactly one alert per row
whose amount reaches 50000 — in row order, each with id
`ALERT_HIGHVALUE_<TransactionID>` — and no other row contributes one; in
particular the one-row ATM batch with amount 75000 yields exactly the one
alert referencing its TransactionID. -/
theorem c1_high_value_rule :
    (∀ rows : List Row,
        (fraud_detection rows).filter (fun a => a.type == "HIGH_VALUE")
          = (rows.filter (fun r => decide (Dec.le HIGH_VALUE_THRESHOLD (amtOf r)))).map
              mkHighValueAlert)
    ∧ (∀ r : Row,
        (mkHighValueAlert r).alert_id = "ALERT_HIGHVALUE_" ++ pyOptStr r.TransactionID)
    ∧ (fraud_detection [atmScenarioRow]).filter (fun a => a.type == "HIGH_VALUE")
        = [mkHighValueAlert atmScenarioRow]
    ∧ (mkHighValueAlert atmScenarioRow).alert_id = "ALERT_HIGHVALUE_TXN75" := by
  refine ⟨?_, fun r => rfl, by decide, by decide⟩
  intro rows
  rw [fraud_detection_parts, List.filter_append, List.filter_append, List.filter_append]
  have h1 : (highValueAlerts rows).filter (fun a => a.type == "HIGH_VALUE")
      = highValueAlerts rows :=
    List.filter_eq_self.mpr (fun a ha => by rw [mem_highValueAlerts_type ha]; decide)
  have h2 : (joinMap (fun g => velocityPass g.1 (sortItems g.2))
      (byCustomer rows)).filter (fun a => a.type == "HIGH_VALUE") = [] := by
    refine List.filter_eq_nil_iff.mpr (fun a ha => ?_)
    obtain ⟨g, _, hg⟩ := mem_joinMap.mp ha
    rw [(mem_velocityPass hg).1]
    decide
  have h3 : (joinMap (fun g => geoPass g.1 (sortItems g.2) (geoTimestamps (sortItems g.2)))
      (byCustomer rows)).filter (fun a => a.type == "HIGH_VALUE") = [] := by
    refine List.filter_eq_nil_iff.mpr (fun a ha => ?_)
    obtain ⟨g, _, hg⟩ := mem_joinMap.mp ha
    rw [(mem_geoPass hg).1]
    decide
  have h4 : (joinMap (fun g => drainGroup g.1 g.2)
      (byCustomer rows)).filter (fun a => a.type == "HIGH_VALUE") = [] := by
    refine List.filter_eq_nil_iff.mpr (fun a ha => ?_)
    obtain ⟨g, _, hg⟩ := mem_joinMap.mp ha
    rw [(mem_drainGroup hg).1]
    decide
  rw [h1, h2, h3, h4, List.append_nil, List.append_nil, List.append_nil]
  exact highValueAlerts_eq rows

/-! ## Claim C7 — device misuse -/

/-- C7 counterexample: a batch in which one device carries four transactions
produces no alert at all — `fraud_detection` has no device-misuse rule (it
never reads `DeviceID`), so no device with ≥ 4 transactions causes a
device-misuse alert. -/
theorem c7_device_misuse_counterexample :
    4 ≤ (deviceBatch.filter (fun r => r.DeviceID == some "D1")).length
    ∧ fraud_detection deviceBatch = [] := by
  refine ⟨by decide, by decide⟩

/-- C7 (amended): `fraud_detection` implements no device-misuse rule: every
alert it can emit has type `HIGH_VALUE`, `VELOCITY_ATTACK`,
`GEO_LOCATION_SWITCH` or `BALANCE_DRAIN`, so a device with four or more
transactions in a batch triggers no device alert. -/
theorem c7_no_device_misuse_rule :
    ∀ (rows : List Row) (a : Alert), a ∈ fraud_detection rows →
      a.type = "HIGH_VALUE" ∨ a.type = "VELOCITY_ATTACK"
        ∨ a.type = "GEO_LOCATION_SWITCH" ∨ a.type = "BALANCE_DRAIN" := by
  intro rows a ha
  rw [fraud_detection_parts] at ha
  rcases List.mem_append.mp ha with h | h
  · exact Or.inl (mem_highValueAlerts_type h)
  rcases List.mem_append.mp h with h | h
  · obtain ⟨g, _, hg⟩ := mem_joinMap.mp h
    exact Or.inr (Or.inl (mem_velocityPass hg).1)
  rcases List.mem_append.mp h with h | h
  · obtain ⟨g, _, hg⟩ := mem_joinMap.mp h
    exact Or.inr (Or.inr (Or.inl (mem_geoPass hg).1))
  · obtain ⟨g, _, hg⟩ := mem_joinMap.mp h
    exact Or.inr (Or.inr (Or.inr (mem_drainGroup hg).1))

/-- C7 witness (for the amended claim): the scenario batch's one alert has
one of the four engine types. -/
theorem c7_no_device_misuse_rule_witness :
    (mkHighValueAlert atmScenarioRow).type = "HIGH_VALUE"
      ∨ (mkHighValueAlert atmScenarioRow).type = "VELOCITY_ATTACK"
      ∨ (mkHighValueAlert atmScenarioRow).type = "GEO_LOCATION_SWITCH"
      ∨ (mkHighValueAlert atmScenarioRow).type = "BALANCE_DRAIN" :=
  c7_no_device_misuse_rule [atmScenarioRow] (mkHighValueAlert atmScenarioRow) (by decide)

/-! ## Claim C10 — rows with unparseable timestamps -/

/-- C10: a row whose `Timestamp` fails to parse never joins the customer
grouping, so it appears in no `VELOCITY_ATTACK`, `GEO_LOCATION_SWITCH` or
`BALANCE_DRAIN` alert's transaction list; it is still evaluated by the
high-value rule, where a missing amount is read as 0 (the engine itself is a
total function — the parse failure is swallowed and no exception
escapes). -/
theorem c10_unparseable_timestamp :
    ∀ (rows : List Row) (r : Row), r ∈ rows → rowTs r = none →
      (∀ a ∈ fraud_detection rows,
          (a.type = "VELOCITY_ATTACK" ∨ a.type = "GEO_LOCATION_SWITCH"
            ∨ a.type = "BALANCE_DRAIN") →
          r ∉ a.transactions)
      ∧ (Dec.le HIGH_VALUE_THRESHOLD (amtOf r) →
          mkHighValueAlert r ∈ fraud_detection rows)
      ∧ (r.Amount = none → amtOf r = ⟨0, 0⟩) := by
  intro rows r hr hts
  refine ⟨?_, ?_, ?_⟩
  · intro a ha htype hmem
    rw [fraud_detection_parts] at ha
    rcases List.mem_append.mp ha with h | h
    · have hh := mem_highValueAlerts_type h
      rcases htype with h2 | h2 | h2 <;> exact absurd (hh.symm.trans h2) (by decide)
    · have horigin : ∃ t, (t, r) ∈ parsedRows rows := by
        rcases List.mem_append.mp h with h | h
        · obtain ⟨⟨cid, gl⟩, hgmem, hg⟩ := mem_joinMap.mp h
          obtain ⟨t, ht⟩ := (mem_velocityPass hg).2 r hmem
          have ht2 : (t, r) ∈ gl := mem_sortItems.mp ht
          rw [mem_groupBy hgmem] at ht2
          exact ⟨t, groupOf_subset ht2⟩
        rcases List.mem_append.mp h with h | h
        · obtain ⟨⟨cid, gl⟩, hgmem, hg⟩ := mem_joinMap.mp h
          obtain ⟨t, ht⟩ := (mem_geoPass hg).2 r hmem
          have ht2 : (t, r) ∈ gl := mem_sortItems.mp ht
          rw [mem_groupBy hgmem] at ht2
          exact ⟨t, groupOf_subset ht2⟩
        · obtain ⟨⟨cid, gl⟩, hgmem, hg⟩ := mem_joinMap.mp h
          obtain ⟨t, ht⟩ := (mem_drainGroup hg).2 r hmem
          have ht2 : (t, r) ∈ gl := mem_sortItems.mp ht
          rw [mem_groupBy hgmem] at ht2
          exact ⟨t, groupOf_subset ht2⟩
      obtain ⟨t, ht⟩ := horigin
      have := (mem_parsedRows ht).2
      rw [hts] at this
      cases this
  · intro hamt
    rw [fraud_detection_parts]
    refine List.mem_append.mpr (Or.inl ?_)
    rw [highValueAlerts_eq]
    exact List.mem_map.mpr
      ⟨r, List.mem_filter.mpr ⟨hr, decide_eq_true hamt⟩, rfl⟩
  · intro h
    rw [amtOf, h]

/-- C10 witness: the concrete unparseable-timestamp row still raises its
high-value alert. -/
theorem c10_unparseable_timestamp_witness :
    rowTs badTsRow = none
    ∧ mkHighValueAlert badTsRow ∈ fraud_detection [badTsRow] :=
  ⟨by decide,
   (c10_unparseable_timestamp [badTsRow] badTsRow (List.mem_singleton.mpr rfl)
      (by decide)).2.1 (by decide)⟩

/-! ## Claim C9 — balance vs income mismatch -/

theorem filter_if_singleton_neg {c : Prop} [Decidable c] {al : PAlert}
    {p : PAlert → Bool} (h : p al = false) :
    (if c then [al] else []).filter p = [] := by
  by_cases hc : c
  · rw [if_pos hc, List.filter_cons_of_neg (by rw [h]; exact Bool.false_ne_true),
      List.filter_nil]
  · rw [if_neg hc, List.filter_nil]

theorem filter_if_singleton_pos {c : Prop} [Decidable c] {al : PAlert}
    {p : PAlert → Bool} (h : p al = true) :
    (if c then [al] else []).filter p = if c then [al] else [] := by
  by_cases hc : c
  · rw [if_pos hc, List.filter_cons_of_pos (by rw [h]), List.filter_nil]
  · rw [if_neg hc, List.filter_nil]

theorem profileKycNotDone_no_bim (ad : AccountDoc) :
    (profileKycNotDone ad).filter (fun a => a.type == "BALANCE_INCOME_MISMATCH") = [] := by
  rw [profileKycNotDone]
  exact filter_if_singleton_neg rfl

theorem profileKycVerificationFailed_no_bim (ad : AccountDoc) :
    (profileKycVerificationFailed ad).filter
      (fun a => a.type == "BALANCE_INCOME_MISMATCH") = [] := by
  rw [profileKycVerificationFailed]
  exact filter_if_singleton_neg rfl

theorem profileDormant_no_bim (ad : AccountDoc) :
    (profileDormant ad).filter (fun a => a.type == "BALANCE_INCOME_MISMATCH") = [] := by
  rw [profileDormant]
  exact filter_if_singleton_neg rfl

theorem profileClosed_no_bim (ad : AccountDoc) :
    (profileClosed ad).filter (fun a => a.type == "BALANCE_INCOME_MISMATCH") = [] := by
  rw [profileClosed]
  exact filter_if_singleton_neg rfl

theorem profileStale_no_bim (ad : AccountDoc) (now : Int) :
    (profileStale ad now).filter (fun a => a.type == "BALANCE_INCOME_MISMATCH") = [] := by
  rw [profileStale]
  rcases parse_ts ad.Account.AccountOpenDate with _ | openT
  · rfl
  · exact filter_if_singleton_neg rfl

theorem profileBalanceIncome_filter_bim (ad : AccountDoc) (cd : CustomerDoc) :
    (profileBalanceIncome ad (some cd)).filter
        (fun a => a.type == "BALANCE_INCOME_MISMATCH")
      = profileBalanceIncome ad (some cd) := by
  simp only [profileBalanceIncome.eq_def]
  exact filter_if_singleton_pos rfl

theorem profileBalanceIncome_length (ad : AccountDoc) (cd : CustomerDoc) :
    (profileBalanceIncome ad (some cd)).length
      = if Dec.lt ⟨0, 0⟩ (floatOrZero cd.AnnualIncome)
          ∧ Dec.lt ((floatOrZero cd.AnnualIncome).mul ⟨10, 0⟩)
              (floatOrZero ad.Account.Balance)
        then 1 else 0 := by
  simp only [profileBalanceIncome.eq_def]
  by_cases hc : Dec.lt ⟨0, 0⟩ (floatOrZero cd.AnnualIncome)
      ∧ Dec.lt ((floatOrZero cd.AnnualIncome).mul ⟨10, 0⟩)
          (floatOrZero ad.Account.Balance)
  · rw [if_pos hc, if_pos hc]
    rfl
  · rw [if_neg hc, if_neg hc]
    rfl

/-- C9: for an account evaluated with a customer document whose
`AnnualIncome` parses to a positive number, `generate_profile_alerts` emits
exactly one `BALANCE_INCOME_MISMATCH` alert when the account balance exceeds
ten times that income, and none otherwise. -/
theorem c9_balance_income_mismatch :
    ∀ (ad : AccountDoc) (cd : CustomerDoc) (now : Int) (inc : Dec),
      to_float cd.AnnualIncome = some inc →
      Dec.lt ⟨0, 0⟩ inc →
      ((generate_profile_alerts ad (some cd) now).filter
          (fun a => a.type == "BALANCE_INCOME_MISMATCH")).length
        = if Dec.lt (inc.mul ⟨10, 0⟩) (floatOrZero ad.Account.Balance) then 1 else 0 := by
  intro ad cd now inc hinc hpos
  have hm : inc.m ≠ 0 := by
    rw [Dec.lt] at hpos
    intro h0
    rw [h0] at hpos
    simp at hpos
  have hfz : floatOrZero cd.AnnualIncome = inc := by
    rw [floatOrZero, hinc]
    show (if inc.m = 0 then (⟨0, 0⟩ : Dec) else inc) = inc
    rw [if_neg hm]
  rw [generate_profile_alerts, List.filter_append, List.filter_append,
    List.filter_append, List.filter_append, List.filter_append,
    profileKycNotDone_no_bim, profileKycVerificationFailed_no_bim,
    profileDormant_no_bim, profileClosed_no_bim, profileStale_no_bim,
    profileBalanceIncome_filter_bim]
  simp only [List.nil_append, List.append_nil]
  rw [profileBalanceIncome_length, hfz]
  by_cases hb : Dec.lt (inc.mul ⟨10, 0⟩) (floatOrZero ad.Account.Balance)
  · rw [if_pos ⟨hpos, hb⟩, if_pos hb]
  · rw [if_neg (fun hc => hb hc.2), if_neg hb]

/-- C9 witness: balance 600000 against income 50000 raises exactly one
mismatch alert. -/
theorem c9_balance_income_mismatch_witness :
    to_float scenarioCustomerDoc.AnnualIncome = some ⟨50000, 0⟩
    ∧ Dec.lt ⟨0, 0⟩ ⟨50000, 0⟩
    ∧ ((generate_profile_alerts scenarioAccountDoc (some scenarioCustomerDoc) 0).filter
        (fun a => a.type == "BALANCE_INCOME_MISMATCH")).length = 1 :=
  ⟨by decide, by decide,
   (c9_balance_income_mismatch scenarioAccountDoc scenarioCustomerDoc 0 ⟨50000, 0⟩
      (by decide) (by decide)).trans (if_pos (by decide))⟩

/-! ## Claim C4 — validator error rules -/

theorem aliasChain_none_or_truthy (d : List (String × Option String)) :
    ∀ ks, aliasChain d ks = none ∨ truthyStr (aliasChain d ks) = true := by
  intro ks
  induction ks with
  | nil => exact Or.inl rfl
  | cons k ks ih =>
    rw [aliasChain]
    by_cases h : truthyStr (dictGet d k)
    · rw [if_pos h]
      exact Or.inr (by simpa using h)
    · rw [if_neg h]
      exact ih

theorem validate_errors_eq (row : RawRow) (st : String) :
    (validate_transaction_row row st).1
      = (if truthyStr (resolvedTxnId row) then [] else ["Missing TransactionID"])
        ++ (match resolvedAmount row with
            | none => ["Invalid Amount"]
            | some q =>
              if Dec.le q ⟨0, 0⟩ ∧ resolvedTypeToken row ∉ zero_allowed
              then ["Invalid or non-positive Amount"] else [])
        ++ (match resolvedTimestamp row with
            | none => ["Invalid Timestamp"]
            | some _ => []) := by
  rw [validate_transaction_row]

/-- C4: `validate_transaction_row` reports `Missing TransactionID` exactly
when no accepted id alias carries a truthy value, and reports an amount error
exactly when the resolved amount is non-numeric, or is zero-or-negative
while the normalized type token is outside the zero-allowed set; a
non-numeric amount is always an error, whatever the type. -/
theorem c4_validator_errors :
    ∀ (row : RawRow) (st : String),
      ("Missing TransactionID" ∈ (validate_transaction_row row st).1
          ↔ resolvedTxnId row = none)
      ∧ (("Invalid Amount" ∈ (validate_transaction_row row st).1
            ∨ "Invalid or non-positive Amount" ∈ (validate_transaction_row row st).1)
          ↔ (resolvedAmount row = none
             ∨ ∃ q, resolvedAmount row = some q ∧ Dec.le q ⟨0, 0⟩
                 ∧ resolvedTypeToken row ∉ zero_allowed))
      ∧ (resolvedAmount row = none
          → "Invalid Amount" ∈ (validate_transaction_row row st).1) := by
  intro row st
  have he := validate_errors_eq row st
  have hAmtMem : ∀ x ∈ (match resolvedAmount row with
      | none => ["Invalid Amount"]
      | some q =>
        if Dec.le q ⟨0, 0⟩ ∧ resolvedTypeToken row ∉ zero_allowed
        then ["Invalid or non-positive Amount"] else []),
      x = "Invalid Amount" ∨ x = "Invalid or non-positive Amount" := by
    rcases resolvedAmount row with _ | q
    · intro x hx
      exact Or.inl (List.mem_singleton.mp hx)
    · intro x hx
      have hx2 : x ∈ (if Dec.le q ⟨0, 0⟩ ∧ resolvedTypeToken row ∉ zero_allowed
          then ["Invalid or non-positive Amount"] else ([] : List String)) := hx
      by_cases hc : Dec.le q ⟨0, 0⟩ ∧ resolvedTypeToken row ∉ zero_allowed
      · rw [if_pos hc] at hx2
        exact Or.inr (List.mem_singleton.mp hx2)
      · rw [if_neg hc] at hx2
        cases hx2
  have hAmtCase : ∀ x, x ∈ (match resolvedAmount row with
      | none => ["Invalid Amount"]
      | some q =>
        if Dec.le q ⟨0, 0⟩ ∧ resolvedTypeToken row ∉ zero_allowed
        then ["Invalid or non-positive Amount"] else []) →
      (resolvedAmount row = none
        ∨ ∃ q, resolvedAmount row = some q ∧ Dec.le q ⟨0, 0⟩
            ∧ resolvedTypeToken row ∉ zero_allowed) := by
    rcases hA : resolvedAmount row with _ | q
    · intro x hx
      exact Or.inl rfl
    · intro x hx
      have hx2 : x ∈ (if Dec.le q ⟨0, 0⟩ ∧ resolvedTypeToken row ∉ zero_allowed
          then ["Invalid or non-positive Amount"] else ([] : List String)) := hx
      by_cases hc : Dec.le q ⟨0, 0⟩ ∧ resolvedTypeToken row ∉ zero_allowed
      · exact Or.inr ⟨q, rfl, hc.1, hc.2⟩
      · rw [if_neg hc] at hx2
        cases hx2
  have hTsMem : ∀ x ∈ (match resolvedTimestamp row with
      | none => ["Invalid Timestamp"]
      | some _ => ([] : List String)), x = "Invalid Timestamp" := by
    rcases resolvedTimestamp row with _ | t
    · intro x hx
      exact List.mem_singleton.mp hx
    · intro x hx
      cases hx
  have hIdMem : ∀ x ∈ (if truthyStr (resolvedTxnId row) then ([] : List String)
      else ["Missing TransactionID"]), x = "Missing TransactionID" := by
    by_cases ht : truthyStr (resolvedTxnId row)
    · rw [if_pos ht]
      intro x hx
      cases hx
    · rw [if_neg ht]
      intro x hx
      exact List.mem_singleton.mp hx
  refine ⟨?_, ?_, ?_⟩
  · rw [he, List.mem_append, List.mem_append]
    constructor
    · rintro ((h | h) | h)
      · rcases aliasChain_none_or_truthy (cleanKV row)
          ["TransactionID", "TxID", "transactionid", "transaction_id"] with hn | htr
        · exact hn
        · rw [show aliasChain (cleanKV row)
              ["TransactionID", "TxID", "transactionid", "transaction_id"]
              = resolvedTxnId row from rfl] at htr
          rw [if_pos (by simpa using htr)] at h
          cases h
      · exact absurd (hAmtMem _ h) (by decide)
      · exact absurd (hTsMem _ h) (by decide)
    · intro hnone
      refine Or.inl (Or.inl ?_)
      rw [show truthyStr (resolvedTxnId row) = false from by rw [hnone]; rfl]
      rw [if_neg (by decide)]
      exact List.mem_singleton.mpr rfl
  · rw [he, List.mem_append, List.mem_append, List.mem_append, List.mem_append]
    constructor
    · rintro ((((h | h) | h)) | (((h | h) | h)))
      · exact absurd (hIdMem _ h) (by decide)
      · exact hAmtCase _ h
      · exact absurd (hTsMem _ h) (by decide)
      · exact absurd (hIdMem _ h) (by decide)
      · exact hAmtCase _ h
      · exact absurd (hTsMem _ h) (by decide)
    · rintro (hA | ⟨q, hA, h1, h2⟩)
      · refine Or.inl (Or.inl (Or.inr ?_))
        rw [hA]
        exact List.mem_singleton.mpr rfl
      · refine Or.inr (Or.inl (Or.inr ?_))
        rw [hA]
        show "Invalid or non-positive Amount"
          ∈ (if Dec.le q ⟨0, 0⟩ ∧ resolvedTypeToken row ∉ zero_allowed
            then ["Invalid or non-positive Amount"] else ([] : List String))
        rw [if_pos ⟨h1, h2⟩]
        exact List.mem_singleton.mpr rfl
  · intro hA
    rw [he, List.mem_append, List.mem_append]
    refine Or.inl (Or.inr ?_)
    rw [hA]
    exact List.mem_singleton.mpr rfl

/-- C4 witness: a row whose amount alias reads `"abc"` gets the
`Invalid Amount` error. -/
theorem c4_validator_errors_witness :
    resolvedAmount badAmountRawRow = none
    ∧ "Invalid Amount" ∈ (validate_transaction_row badAmountRawRow "ATM").1 :=
  ⟨by decide,
   (c4_validator_errors badAmountRawRow "ATM").2.2 (by decide)⟩

/-! ## Claim C3 — balance drain -/

theorem drainLoop_ne_nil_iff (cid : String) (all : List (Int × Row)) (start : Int) :
    ∀ (l : List (Int × Row)) (acc : Dec),
      drainLoop cid all start acc l ≠ []
        ↔ ∃ k, ∃ h : k < l.length,
            (l.get ⟨k, h⟩).1 - start ≤ TEN_MINUTES_MICROS
              ∧ Dec.le DRAIN_THRESHOLD
                  (((l.take (k + 1)).map (fun p => amtOf p.2)).foldl Dec.add acc) := by
  intro l
  induction l with
  | nil =>
    intro acc
    constructor
    · intro h
      exact absurd rfl h
    · rintro ⟨k, hk, _⟩
      exact absurd hk (by simp)
  | cons p rest ih =>
    intro acc
    obtain ⟨t, r⟩ := p
    rw [drainLoop]
    by_cases hc : t - start ≤ TEN_MINUTES_MICROS
        ∧ Dec.le DRAIN_THRESHOLD (acc.add (amtOf r))
    · rw [if_pos hc]
      constructor
      · intro _
        exact ⟨0, by simp, hc.1, hc.2⟩
      · intro _
        simp
    · rw [if_neg hc]
      rw [ih (acc.add (amtOf r))]
      constructor
      · rintro ⟨k, hk, h1, h2⟩
        exact ⟨k + 1, by simpa using Nat.succ_lt_succ hk, h1, h2⟩
      · rintro ⟨k, hk, h1, h2⟩
        cases k with
        | zero =>
          exact absurd ⟨h1, h2⟩ hc
        | succ k2 =>
          exact ⟨k2, Nat.lt_of_succ_lt_succ (by simpa using hk), h1, h2⟩

/-- C3: per group, with the group's rows sorted ascending by timestamp and
amounts accumulated from the first transaction, the engine raises exactly
one `BALANCE_DRAIN` alert when some transaction within ten minutes of the
group's first timestamp brings the running total to at least 100000 — and
none otherwise; the per-group scan never yields more than one alert (it
stops at the first trigger), and each such alert is part of the engine's
output. -/
theorem c3_balance_drain :
    ∀ (rows : List Row) (cid : String) (items : List (Int × Row)),
      (cid, items) ∈ byCustomer rows →
      ∀ (t0 : Int) (r0 : Row) (rest : List (Int × Row)),
        sortItems items = (t0, r0) :: rest →
        ((drainGroup cid items).length = 1
            ↔ ∃ k, ∃ h : k < (sortItems items).length,
                ((sortItems items).get ⟨k, h⟩).1 - t0 ≤ TEN_MINUTES_MICROS
                  ∧ Dec.le DRAIN_THRESHOLD (prefixAmt (sortItems items) (k + 1)))
        ∧ (drainGroup cid items).length ≤ 1
        ∧ ∀ a ∈ drainGroup cid items,
            a ∈ fraud_detection rows ∧ a.type = "BALANCE_DRAIN" := by
  intro rows cid items hmem t0 r0 rest hs
  have hD : drainGroup cid items
      = drainLoop cid ((t0, r0) :: rest) t0 ⟨0, 0⟩ ((t0, r0) :: rest) := by
    rw [drainGroup, hs]
  refine ⟨?_, ?_, ?_⟩
  · rw [hD, hs]
    simp only [prefixAmt]
    have hlen1 : (drainLoop cid ((t0, r0) :: rest) t0 ⟨0, 0⟩ ((t0, r0) :: rest)).length = 1
        ↔ drainLoop cid ((t0, r0) :: rest) t0 ⟨0, 0⟩ ((t0, r0) :: rest) ≠ [] := by
      rcases drainLoop_shape cid ((t0, r0) :: rest) t0 ((t0, r0) :: rest) ⟨0, 0⟩ with
        h | ⟨t, tot, h⟩ <;> rw [h] <;> simp
    exact hlen1.trans (drainLoop_ne_nil_iff cid ((t0, r0) :: rest) t0 ((t0, r0) :: rest) ⟨0, 0⟩)
  · rw [hD]
    rcases drainLoop_shape cid ((t0, r0) :: rest) t0 ((t0, r0) :: rest) ⟨0, 0⟩ with
      h | ⟨t, tot, h⟩ <;> rw [h] <;> simp
  · intro a ha
    refine ⟨?_, (mem_drainGroup ha).1⟩
    rw [fraud_detection_parts]
    refine List.mem_append.mpr (Or.inr ?_)
    refine List.mem_append.mpr (Or.inr ?_)
    refine List.mem_append.mpr (Or.inr ?_)
    exact mem_joinMap.mpr ⟨(cid, items), hmem, ha⟩

/-- C3 witness: the two-transaction group totalling 110000 inside ten
minutes yields exactly one drain alert. -/
theorem c3_balance_drain_witness :
    ("CUST3", groupOf (fun p => cidOf p.2) (parsedRows drainBatch) "CUST3")
      ∈ byCustomer drainBatch
    ∧ (drainGroup "CUST3"
        (groupOf (fun p => cidOf p.2) (parsedRows drainBatch) "CUST3")).length = 1 :=
  ⟨by decide,
   ((c3_balance_drain drainBatch "CUST3"
        (groupOf (fun p => cidOf p.2) (parsedRows drainBatch) "CUST3") (by decide)
        1704103200000000
        { TransactionID := some "TD1", CustomerID := some "CUST3"
          Amount := some ⟨60000, 0⟩, Timestamp := some "2024-01-01T10:00:00+00:00" }
        [(1704103500000000,
          { TransactionID := some "TD2", CustomerID := some "CUST3"
            Amount := some ⟨50000, 0⟩, Timestamp := some "2024-01-01T10:05:00+00:00" })]
        (by decide)).1).mpr ⟨1, by decide, by decide, by decide⟩⟩

/-! ## Claim C2 — velocity windows -/

theorem sorted_filter_eq_takeWhile {b : Int} :
    ∀ {s : List (Int × Row)}, List.Sorted tsLe s →
      s.filter (fun p => decide (p.1 ≤ b)) = s.takeWhile (fun p => decide (p.1 ≤ b)) := by
  intro s
  induction s with
  | nil => intro _; rfl
  | cons p rest ih =>
    intro hsort
    rw [List.takeWhile_cons]
    by_cases h : p.1 ≤ b
    · rw [List.filter_cons_of_pos (by simpa using h), if_pos (by simpa using h)]
      rw [ih hsort.of_cons]
    · rw [List.filter_cons_of_neg (by simpa using h), if_neg (by simpa using h)]
      refine List.filter_eq_nil_iff.mpr ?_
      intro q hq
      have hrel := List.rel_of_sorted_cons hsort q hq
      rw [tsLe] at hrel
      simp only [decide_eq_true_eq]
      omega

theorem dropWhile_head_false {p : α → Bool} :
    ∀ {l : List α} {q : α} {tail : List α}, l.dropWhile p = q :: tail → p q = false := by
  intro l
  induction l with
  | nil => intro q tail h; cases h
  | cons x xs ih =>
    intro q tail h
    rw [List.dropWhile_cons] at h
    by_cases hx : p x
    · rw [if_pos (by simpa using hx)] at h
      exact ih h
    · rw [if_neg (by simpa using hx)] at h
      injection h with h1 _
      rw [← h1]
      simpa using hx

theorem velocityPass_append_right (cid : String) {a : Alert} :
    ∀ (l1 : List (Int × Row)) {l2 : List (Int × Row)},
      a ∈ velocityPass cid l2 → a ∈ velocityPass cid (l1 ++ l2) := by
  intro l1
  induction l1 with
  | nil => intro l2 h; exact h
  | cons x xs ih =>
    intro l2 h
    rw [List.cons_append, velocityPass]
    exact List.mem_append.mpr (Or.inr (ih h))

/-- C2: the window scan restarts at every next index (first conjunct: the
scan of a group is literally "maybe alert at this start, then rescan the
tail", so overlapping qualifying windows each produce their own alert); and
whenever at least ten transactions of one customer group carry parseable
timestamps within the two-minute window of the earliest of them, the engine
emits a `VELOCITY_ATTACK` alert holding at least ten transactions. -/
theorem c2_velocity_window :
    (∀ (cid : String) (p : Int × Row) (rest : List (Int × Row)),
        velocityPass cid (p :: rest)
          = (if VELOCITY_TXN_COUNT ≤ (p :: velocityBurst p.1 rest).length
             then [mkVelocityAlert cid p.1 (p :: velocityBurst p.1 rest)] else [])
            ++ velocityPass cid rest)
    ∧ (∀ (rows : List Row) (cid : String) (t0 : Int),
        t0 ∈ (groupOf (fun p => cidOf p.2) (parsedRows rows) cid).map (fun p => p.1) →
        VELOCITY_TXN_COUNT
            ≤ ((groupOf (fun p => cidOf p.2) (parsedRows rows) cid).filter
                (fun p => decide (t0 ≤ p.1)
                  && decide (p.1 ≤ t0 + VELOCITY_WINDOW_MICROS))).length →
        ∃ a ∈ fraud_detection rows,
          a.type = "VELOCITY_ATTACK" ∧ VELOCITY_TXN_COUNT ≤ a.transactions.length) := by
  constructor
  · intro cid p rest
    rfl
  · intro rows cid t0 hmem hcount
    have hperm : List.Perm (sortItems (groupOf (fun p => cidOf p.2) (parsedRows rows) cid))
        (groupOf (fun p => cidOf p.2) (parsedRows rows) cid) :=
      List.perm_insertionSort tsLe _
    have hsorted : List.Sorted tsLe
        (sortItems (groupOf (fun p => cidOf p.2) (parsedRows rows) cid)) :=
      List.sorted_insertionSort tsLe _
    set g := groupOf (fun p => cidOf p.2) (parsedRows rows) cid with hg
    set s := sortItems g with hsdef
    set P := fun p : Int × Row => decide (t0 ≤ p.1)
        && decide (p.1 ≤ t0 + VELOCITY_WINDOW_MICROS) with hPdef
    have hcount2 : VELOCITY_TXN_COUNT ≤ (s.filter P).length := by
      rw [(hperm.filter P).length_eq]
      exact hcount
    have hmem2 : t0 ∈ s.map (fun p => p.1) :=
      ((hperm.map (fun p => p.1)).mem_iff).mpr hmem
    set pre := s.takeWhile (fun p => decide (p.1 < t0)) with hpre
    set suf := s.dropWhile (fun p => decide (p.1 < t0)) with hsuf
    have hsplit : pre ++ suf = s := by
      rw [hpre, hsuf]
      exact List.takeWhile_append_dropWhile _ _
    obtain ⟨x0, hx0mem, hx0f⟩ := List.mem_map.mp hmem2
    have hx0 : x0.1 = t0 := hx0f
    have hx0suf : x0 ∈ suf := by
      rcases List.mem_append.mp (hsplit ▸ hx0mem) with h | h
      · have hlt := List.mem_takeWhile_imp (hpre ▸ h)
        simp only [decide_eq_true_eq] at hlt
        omega
      · exact h
    rcases hq : suf with _ | ⟨q, tail⟩
    · have hnil : x0 ∈ ([] : List (Int × Row)) := by
        rw [← hq]
        exact hx0suf
      cases hnil
    have hx0suf2 : x0 ∈ q :: tail := by
      rw [← hq]
      exact hx0suf
    have hqd : List.dropWhile (fun p => decide (p.1 < t0)) s = q :: tail := by
      show suf = q :: tail
      exact hq
    have hqhead := dropWhile_head_false hqd
    have hsufsorted : List.Sorted tsLe (q :: tail) := by
      have hsub : List.Sublist (q :: tail) s := by
        rw [← hqd]
        exact List.dropWhile_sublist _
      exact List.Pairwise.sublist hsub hsorted
    have hq1 : q.1 = t0 := by
      have h1 : ¬(q.1 < t0) := by simpa using hqhead
      have h2 : q.1 ≤ t0 := by
        rcases List.mem_cons.mp hx0suf2 with h | h
        · rw [h] at hx0
          omega
        · have hrel := List.rel_of_sorted_cons hsufsorted x0 h
          rw [tsLe] at hrel
          omega
      omega
    set B := fun p : Int × Row => decide (p.1 ≤ t0 + VELOCITY_WINDOW_MICROS) with hBdef
    have hsplit2 : s = pre ++ (q :: tail) := by
      rw [← hsplit, hq]
    have hpreP : pre.filter P = [] := by
      refine List.filter_eq_nil_iff.mpr ?_
      intro x hx
      have hlt := List.mem_takeWhile_imp (hpre ▸ hx)
      simp only [decide_eq_true_eq] at hlt
      simp only [hPdef, Bool.and_eq_true, decide_eq_true_eq, not_and]
      omega
    have hc3 : VELOCITY_TXN_COUNT ≤ ((q :: tail).filter P).length := by
      rw [hsplit2, List.filter_append, hpreP, List.nil_append] at hcount2
      exact hcount2
    have hPB : ∀ p : Int × Row, P p → B p := by
      intro p hp
      rw [hPdef] at hp
      rw [hBdef]
      simp only [Bool.and_eq_true] at hp
      exact hp.2
    have hc4 : ((q :: tail).filter P).length ≤ ((q :: tail).filter B).length :=
      (List.monotone_filter_right _ hPB).length_le
    have hBq : B q = true := by
      rw [hBdef]
      simp only [decide_eq_true_eq]
      rw [hq1]
      rw [VELOCITY_WINDOW_MICROS]
      omega
    have htailsorted : List.Sorted tsLe tail := hsufsorted.of_cons
    have hc5 : (q :: tail).filter B = q :: tail.takeWhile B := by
      rw [List.filter_cons_of_pos hBq, hBdef]
      rw [sorted_filter_eq_takeWhile htailsorted]
    have hburst : velocityBurst q.1 tail = tail.takeWhile B := by
      rw [velocityBurst]
      have hpred : (fun p : Int × Row => decide (p.1 - q.1 ≤ VELOCITY_WINDOW_MICROS)) = B := by
        funext p
        rw [hBdef]
        refine decide_eq_decide.mpr ?_
        rw [hq1]
        omega
      rw [hpred]
    have hblen : VELOCITY_TXN_COUNT ≤ (q :: velocityBurst q.1 tail).length := by
      have : ((q :: tail).filter B).length = (q :: velocityBurst q.1 tail).length := by
        rw [hc5, hburst]
      omega
    have halert : mkVelocityAlert cid q.1 (q :: velocityBurst q.1 tail)
        ∈ velocityPass cid s := by
      rw [hsplit2]
      apply velocityPass_append_right
      rw [velocityPass]
      refine List.mem_append.mpr (Or.inl ?_)
      rw [if_pos hblen]
      exact List.mem_singleton.mpr rfl
    have hgmem : (cid, g) ∈ byCustomer rows := by
      rw [hg, byCustomer]
      apply group_mem_groupBy
      have hx0s : x0 ∈ s := by
        rw [hsplit2]
        exact List.mem_append.mpr (Or.inr hx0suf2)
      have hx0g : x0 ∈ g := hperm.mem_iff.mp hx0s
      have hkey : cidOf x0.2 = cid := by
        have := List.of_mem_filter (hg ▸ hx0g)
        simpa using this
      exact List.mem_map.mpr ⟨x0, groupOf_subset (hg ▸ hx0g), hkey⟩
    refine ⟨mkVelocityAlert cid q.1 (q :: velocityBurst q.1 tail), ?_, rfl, ?_⟩
    · rw [fraud_detection_parts]
      refine List.mem_append.mpr (Or.inr ?_)
      refine List.mem_append.mpr (Or.inl ?_)
      exact mem_joinMap.mpr ⟨(cid, g), hgmem, halert⟩
    · rw [mkVelocityAlert]
      rw [List.length_map]
      exact hblen

/-- C2 witness: twelve transactions of one customer inside 90 seconds raise
a velocity alert listing at least ten of them. -/
theorem c2_velocity_window_witness :
    (1704103200000000 : Int)
      ∈ (groupOf (fun p => cidOf p.2) (parsedRows velocityBatch) "CUST2").map
          (fun p => p.1)
    ∧ VELOCITY_TXN_COUNT
        ≤ ((groupOf (fun p => cidOf p.2) (parsedRows velocityBatch) "CUST2").filter
            (fun p => decide ((1704103200000000 : Int) ≤ p.1)
              && decide (p.1 ≤ (1704103200000000 : Int) + VELOCITY_WINDOW_MICROS))).length
    ∧ ∃ a ∈ fraud_detection velocityBatch,
        a.type = "VELOCITY_ATTACK" ∧ VELOCITY_TXN_COUNT ≤ a.transactions.length :=
  ⟨by decide, by decide,
   c2_velocity_window.2 velocityBatch "CUST2" 1704103200000000 (by decide) (by decide)⟩
